import Mathlib

/-!
Verification development for the invoice-local-analyzer pipeline.

The definitions below are a shallow embedding of the JavaScript source:
`prompts.js` (prompt templates, update planner, guarded updater) and the
analyzer script (evidence extraction, inference client, response parsing,
analysis orchestration).  JavaScript values that flow through JSON are
modelled by the inductive type `JVal`; machine numbers are modelled as
exact rationals (the values compared in this program are small integers
and decimals, where IEEE doubles are exact).
-/

set_option maxHeartbeats 1000000
set_option maxRecDepth 100000

namespace InvoiceAnalyzer

/-- Model of a JavaScript/JSON value as it flows through this program.
`undef` is JavaScript `undefined` (in particular the result of reading an
absent object property); `jnull` is JSON/JS `null`. -/
inductive JVal where
  | jundefined : JVal
  | jnull : JVal
  | jbool : Bool → JVal
  | jnum : Rat → JVal
  | jstr : String → JVal
  | jarr : List JVal → JVal
  | jobj : List (String × JVal) → JVal

mutual

/-- Structural equality of modelled values (used for BSON equality in the
guarded-update filter and for `$set` no-op detection). -/
def JVal.beq : JVal → JVal → Bool
  | .jundefined, .jundefined => true
  | .jnull, .jnull => true
  | .jbool a, .jbool b => a == b
  | .jnum a, .jnum b => a == b
  | .jstr a, .jstr b => a == b
  | .jarr a, .jarr b => JVal.beqList a b
  | .jobj a, .jobj b => JVal.beqFields a b
  | _, _ => false

/-- Pointwise `JVal.beq` on lists. -/
def JVal.beqList : List JVal → List JVal → Bool
  | [], [] => true
  | a :: as, b :: bs => JVal.beq a b && JVal.beqList as bs
  | _, _ => false

/-- Pointwise `JVal.beq` on key/value lists. -/
def JVal.beqFields : List (String × JVal) → List (String × JVal) → Bool
  | [], [] => true
  | (k, v) :: as, (l, w) :: bs => k == l && JVal.beq v w && JVal.beqFields as bs
  | _, _ => false

end

instance : BEq JVal := ⟨JVal.beq⟩

/-- JavaScript truthiness of a value (NaN is not modelled). -/
def JVal.truthy : JVal → Bool
  | .jundefined => false
  | .jnull => false
  | .jbool b => b
  | .jnum q => q != 0
  | .jstr s => s != ""
  | .jarr _ => true
  | .jobj _ => true

/-- JavaScript `typeof v === "number"`. -/
def JVal.isNumber : JVal → Bool
  | .jnum _ => true
  | _ => false

/-- JavaScript property read `v[key]`: an absent key, or a read on a
non-object, yields `undefined`.  For duplicate keys the last binding wins,
matching `JSON.parse`. -/
def JVal.jget (v : JVal) (key : String) : JVal :=
  match v with
  | .jobj fields =>
    match fields.reverse.find? (fun p => p.1 == key) with
    | some p => p.2
    | none => .jundefined
  | _ => .jundefined

/-- JavaScript `v || d`. -/
def jsOr (v d : JVal) : JVal := if v.truthy then v else d

/-- JavaScript `v || d` for an optional string field (`none` = absent). -/
def jsOrStr (v : Option String) (d : String) : String :=
  match v with
  | some s => if s != "" then s else d
  | none => d

/-- Whitespace stripped by JavaScript `String.prototype.trim` (ASCII part). -/
def isJsSpace (c : Char) : Bool :=
  c == ' ' || c == '\t' || c == '\n' || c == '\r' || c == '\x0b' || c == '\x0c'

/-- JavaScript `String.prototype.trim`. -/
def jsTrim (s : String) : String :=
  ⟨((s.data.dropWhile isJsSpace).reverse.dropWhile isJsSpace).reverse⟩

/-- Boolean test that `p` is a leading piece of `l` (character lists). -/
def charsPre : List Char → List Char → Bool
  | [], _ => true
  | _ :: _, [] => false
  | a :: as, b :: bs => a == b && charsPre as bs

/-- Position of the first occurrence of `pat` in `l`
(JavaScript `String.prototype.indexOf`, with `none` for `-1`). -/
def firstMatchPos (pat : List Char) : List Char → Option Nat
  | [] => if charsPre pat [] then some 0 else none
  | b :: bs => if charsPre pat (b :: bs) then some 0 else (firstMatchPos pat bs).map (· + 1)

/-- JavaScript `s.indexOf(pat)` on strings. -/
def jsIndexOf (s pat : String) : Option Nat := firstMatchPos pat.data s.data

/-- JavaScript `s.startsWith(p)`. -/
def jsStartsWith (s p : String) : Bool := charsPre p.data s.data

/-- Position of the first occurrence of character `c`
(JavaScript `indexOf` on a single character, `none` for `-1`). -/
def firstCharPos (c : Char) : List Char → Option Nat
  | [] => none
  | b :: bs => if b == c then some 0 else (firstCharPos c bs).map (· + 1)

/-- Position of the last occurrence of character `c`
(JavaScript `lastIndexOf`, `none` for `-1`). -/
def lastCharPos (c : Char) (l : List Char) : Option Nat :=
  (firstCharPos c l.reverse).map (fun i => l.length - 1 - i)

/-- JavaScript `s.substring(0, i)`. -/
def jsTake (s : String) (i : Nat) : String := ⟨s.data.take i⟩

/-- JavaScript `s.substring(i)`. -/
def jsDrop (s : String) (i : Nat) : String := ⟨s.data.drop i⟩

/-- First-occurrence string replacement, JavaScript
`String.prototype.replace(pattern, replacement)` with a string pattern.
(`$`-escape expansion inside the replacement is not modelled; it only
alters the inserted text, never the rest of the subject string.) -/
def jsReplace (s pat rep : String) : String :=
  match firstMatchPos pat.data s.data with
  | none => s
  | some i => ⟨s.data.take i ++ rep.data ++ s.data.drop (i + pat.data.length)⟩

/-! ### A model of `JSON.parse`

The response parser feeds candidate payload text to `JSON.parse`.  The
parser below follows the JSON value grammar (null, booleans, numbers with
optional sign/fraction/exponent and no leading zeros, strings with escape
sequences, arrays, objects); trailing non-whitespace input is rejected,
as `JSON.parse` throws on it.  Numbers are represented exactly as
rationals. -/

/-- Whitespace accepted between JSON tokens. -/
def isJsonWs (c : Char) : Bool := c == ' ' || c == '\t' || c == '\n' || c == '\r'

/-- Drop leading JSON whitespace. -/
def skipJsonWs (l : List Char) : List Char := l.dropWhile isJsonWs

/-- Value of a hexadecimal digit, if any (codepoint ranges 0-9, a-f, A-F). -/
def hexDigitVal (c : Char) : Option Nat :=
  let n := c.toNat
  if 48 ≤ n && n ≤ 57 then some (n - 48)
  else if 97 ≤ n && n ≤ 102 then some (n - 87)
  else if 65 ≤ n && n ≤ 70 then some (n - 55)
  else none

/-- Decode the body of a JSON string literal (the opening quote already
consumed); returns the decoded characters and the input after the closing
quote. -/
def jsonStrChars : List Char → Option (List Char × List Char)
  | [] => none
  | '"' :: rest => some ([], rest)
  | '\\' :: 'u' :: a :: b :: c :: d :: rest =>
    match hexDigitVal a, hexDigitVal b, hexDigitVal c, hexDigitVal d with
    | some x, some y, some z, some w =>
      (jsonStrChars rest).map (fun p => (Char.ofNat (((x * 16 + y) * 16 + z) * 16 + w) :: p.1, p.2))
    | _, _, _, _ => none
  | '\\' :: e :: rest =>
    let dec : Option Char :=
      if e == '"' then some '"'
      else if e == '\\' then some '\\'
      else if e == '/' then some '/'
      else if e == 'b' then some '\x08'
      else if e == 'f' then some '\x0c'
      else if e == 'n' then some '\n'
      else if e == 'r' then some '\r'
      else if e == 't' then some '\t'
      else none
    match dec with
    | some ch => (jsonStrChars rest).map (fun p => (ch :: p.1, p.2))
    | none => none
  | c :: rest =>
    if c.toNat < 32 then none
    else (jsonStrChars rest).map (fun p => (c :: p.1, p.2))

/-- Numeric value of a digit character. -/
def digitVal (c : Char) : Nat := c.toNat - '0'.toNat

/-- Value of a digit string. -/
def digitsToNat (ds : List Char) : Nat := ds.foldl (fun a c => a * 10 + digitVal c) 0

/-- Assemble a JSON number from its mantissa `m`, the number of fraction
digits `k`, and the exponent `e`: the value `m / 10^k * 10^e`. -/
def mkJsonNum (m : Int) (k : Nat) (e : Int) : Rat :=
  let p : Int := e - (k : Int)
  if 0 ≤ p then ((m * (10 : Int) ^ p.toNat : Int) : Rat)
  else (m : Rat) / (((10 : Nat) ^ (-p).toNat : Nat) : Rat)

/-- Parse the optional fraction part `.digits`; fails on a dot without
digits. Returns the fraction digits and the remaining input. -/
def jsonFracPart : List Char → Option (List Char × List Char)
  | '.' :: r =>
    let f := r.takeWhile Char.isDigit
    if f.isEmpty then none else some (f, r.dropWhile Char.isDigit)
  | l => some ([], l)

/-- Parse the optional exponent part `e[+-]digits`; fails on an exponent
marker without digits. Returns (negated?, exponent digits, rest). -/
def jsonExpPart : List Char → Option (Bool × List Char × List Char)
  | [] => some (false, [], [])
  | c :: r =>
    if c == 'e' || c == 'E' then
      let (en, r1) : Bool × List Char :=
        match r with
        | '-' :: rr => (true, rr)
        | '+' :: rr => (false, rr)
        | _ => (false, r)
      let eds := r1.takeWhile Char.isDigit
      if eds.isEmpty then none else some (en, eds, r1.dropWhile Char.isDigit)
    else some (false, [], c :: r)

/-- Parse a JSON number at the head of the input. -/
def jsonNumPart (l : List Char) : Option (Rat × List Char) :=
  let (neg, l1) : Bool × List Char :=
    match l with
    | '-' :: r => (true, r)
    | _ => (false, l)
  let ds := l1.takeWhile Char.isDigit
  let r1 := l1.dropWhile Char.isDigit
  if ds.isEmpty then none
  else if 1 < ds.length && ds.head? == some '0' then none
  else
    match jsonFracPart r1 with
    | none => none
    | some (fds, r2) =>
      match jsonExpPart r2 with
      | none => none
      | some (en, eds, r3) =>
        let mag : Nat := digitsToNat ds * 10 ^ fds.length + digitsToNat fds
        let m : Int := if neg then -(mag : Int) else (mag : Int)
        let e : Int := if en then -(digitsToNat eds : Int) else (digitsToNat eds : Int)
        some (mkJsonNum m fds.length e, r3)

mutual

/-- Parse one JSON value at the head of the input (fuel-indexed). -/
def jsonValuePart : Nat → List Char → Option (JVal × List Char)
  | 0, _ => none
  | fuel + 1, l =>
    match skipJsonWs l with
    | [] => none
    | 'n' :: 'u' :: 'l' :: 'l' :: rest => some (.jnull, rest)
    | 't' :: 'r' :: 'u' :: 'e' :: rest => some (.jbool true, rest)
    | 'f' :: 'a' :: 'l' :: 's' :: 'e' :: rest => some (.jbool false, rest)
    | '"' :: rest =>
      match jsonStrChars rest with
      | some (cs, r) => some (.jstr ⟨cs⟩, r)
      | none => none
    | '[' :: rest =>
      (match skipJsonWs rest with
       | ']' :: r => some (.jarr [], r)
       | l1 => (jsonElems fuel l1).map (fun p => (.jarr p.1, p.2)))
    | '{' :: rest =>
      (match skipJsonWs rest with
       | '}' :: r => some (.jobj [], r)
       | l1 => (jsonMembers fuel l1).map (fun p => (.jobj p.1, p.2)))
    | l1 => (jsonNumPart l1).map (fun p => (.jnum p.1, p.2))

/-- Parse one or more comma-separated array elements, then `]`. -/
def jsonElems : Nat → List Char → Option (List JVal × List Char)
  | 0, _ => none
  | fuel + 1, l =>
    match jsonValuePart fuel l with
    | none => none
    | some (v, r) =>
      match skipJsonWs r with
      | ',' :: r1 => (jsonElems fuel r1).map (fun p => (v :: p.1, p.2))
      | ']' :: r1 => some ([v], r1)
      | _ => none

/-- Parse one or more comma-separated `"key": value` members, then the
closing brace. -/
def jsonMembers : Nat → List Char → Option (List (String × JVal) × List Char)
  | 0, _ => none
  | fuel + 1, l =>
    match skipJsonWs l with
    | '"' :: rest =>
      (match jsonStrChars rest with
       | none => none
       | some (kcs, r) =>
         match skipJsonWs r with
         | ':' :: r1 =>
           (match jsonValuePart fuel r1 with
            | none => none
            | some (v, r2) =>
              match skipJsonWs r2 with
              | ',' :: r3 => (jsonMembers fuel r3).map (fun p => ((⟨kcs⟩, v) :: p.1, p.2))
              | '}' :: r3 => some ([(⟨kcs⟩, v)], r3)
              | _ => none)
         | _ => none)
    | _ => none

end

/-- Model of `JSON.parse`: parse one value, allow surrounding whitespace,
reject trailing input; `none` models a thrown `SyntaxError`. -/
def jsonParse (s : String) : Option JVal :=
  match jsonValuePart (s.data.length + 2) s.data with
  | some (v, rest) => if (skipJsonWs rest).isEmpty then some v else none
  | none => none

/-- Occurrence test for a substring, `JavaScript s.includes(sub)`. -/
def containsChars (l pat : List Char) : Bool :=
  (List.range (l.length + 1)).any (fun i => charsPre pat (l.drop i))

/-- String version of `containsChars`. -/
def strContainsSub (s sub : String) : Bool := containsChars s.data sub.data

/-! ### Prompt templates (`prompts.js`, `GEMMA_PROMPT_TEMPLATES`) -/

/-- One entry of `GEMMA_PROMPT_TEMPLATES`. -/
structure TemplateInfo where
  base_prompt : String
  criteria : List String

/-- The `PENDING_CONFIRMATION` template. -/
def pendingConfirmationTemplate : TemplateInfo where
  base_prompt :=
    "You are an expert invoice analyst. This invoice (file: {file_name}) is in 'PENDING_CONFIRMATION' status.\n" ++
    "Invoice JSON Data:\n```json\n{json_data}\n```\n" ++
    "{pdf_content_section}\n" ++
    "Determine the primary reason for 'PENDING_CONFIRMATION' by checking for these common issues: {criteria_list}.\n" ++
    "Respond with ONLY the single most critical reason as a concise string. " ++
    "If the primary reason is a missing invoice number (inv_num) in the JSON data, AND you can confidently identify the correct invoice number from the PDF content, " ++
    "append the following on a new line: SUGGESTED_FIX_DATA: \x7b\"inv_num\": \"<identified_invoice_number>\"\x7d. " ++
    "If no fix is suggested, only provide the reason. If no listed issues are found, state 'No specific listed criteria met for PENDING_CONFIRMATION'."
  criteria := [
    "Invoice number (inv_num) is missing or empty.",
    "Total amount (total) is missing or zero.",
    "Line items (line_items) array is missing or empty.",
    "Invoice date (inv_date) is missing.",
    "Invoice date (inv_date) is in the future compared to the current date ({current_date}).",
    "Supplier name (supplier_extra_info.name or supplier field) is missing."]

/-- The `INV_AMOUNT_VARIANCE` template. -/
def invAmountVarianceTemplate : TemplateInfo where
  base_prompt :=
    "You are an expert invoice analyst. This invoice (file: {file_name}) has an 'INV_AMOUNT_VARIANCE' exception (difference: {exception_diff}) and is in 'DISPUTED' status.\n" ++
    "Invoice JSON Data:\n```json\n{json_data}\n```\n" ++
    "{pdf_content_section}\n" ++
    "What is the likely cause of this amount variance? Focus on: {criteria_list}.\n" ++
    "Respond with ONLY the single most likely cause as a concise string. " ++
    "If you can confidently identify a missing value (e.g., shipping cost of 30.00) from the PDF content that would resolve the variance, " ++
    "append the following on a new line: SUGGESTED_FIX_DATA: \x7b\"<field_name>\": <identified_value>\x7d."
  criteria := [
    "Sum of line_items[N].price + taxes + shipping does not equal total.",
    "sub_total + taxes + shipping does not equal total.",
    "discount_amount not correctly applied to calculate total.",
    "shipping cost seems duplicated or incorrectly included in sub_total."]

/-- The `PO_NOT_FOUND` template. -/
def poNotFoundTemplate : TemplateInfo where
  base_prompt :=
    "You are an expert invoice analyst. Invoice (file: {file_name}) has 'PO_NOT_FOUND' exception. JSON 'po_num' is '{po_num_value}'.\n" ++
    "Invoice JSON Data:\n```json\n{json_data}\n```\n" ++
    "{pdf_content_section}\n" ++
    "Why might PO be missing/not found? Check: {criteria_list}.\n" ++
    "Respond with ONLY the most probable reason as a concise string. " ++
    "If you can confidently identify the correct PO number from the PDF content, " ++
    "append the following on a new line: SUGGESTED_FIX_DATA: \x7b\"po_num\": \"<identified_po_number>\"\x7d."
  criteria := [
    "po_num field is empty or null in JSON.",
    "PO number format in JSON appears incorrect or incomplete.",
    "Supplier information or terms might indicate PO is not always required."]

/-- The `ITEM_UNMATCHED` template. -/
def itemUnmatchedTemplate : TemplateInfo where
  base_prompt :=
    "You are an expert invoice analyst. Invoice (file: {file_name}) has 'ITEM_UNMATCHED' exception.\n" ++
    "Invoice JSON Data (line items section is most relevant):\n```json\n{json_data}\n```\n" ++
    "{pdf_content_section}\n" ++
    "Why might items be unmatched? Consider: {criteria_list}.\n" ++
    "Respond with ONLY the most probable reason as a concise string. " ++
    "If you can suggest corrections for line items based on the PDF (e.g., a corrected SKU or quantity), " ++
    "append on a new line: SUGGESTED_FIX_DATA: \x7b\"line_item_updates\": [\x7b\"identifier\": \x7b\"name\": \"<original_item_name_or_sku>\"\x7d, \"corrections\": \x7b\"supplier_product_id\": \"<corrected_sku>\", \"qty\": <corrected_qty>\x7d\x7d]\x7d."
  criteria := [
    "supplier_product_id (SKU) is missing or unusual for one or more line items.",
    "Product 'name' or 'description' is vague or generic.",
    "Unit price or quantity seems implausible (e.g., zero or very high/low)."]

/-- The `UNASSIGNED` template. -/
def unassignedTemplate : TemplateInfo where
  base_prompt :=
    "You are an expert invoice analyst. Invoice (file: {file_name}) 'pending_reason' is 'UNASSIGNED' and status 'PENDING_CONFIRMATION'.\n" ++
    "Invoice JSON Data:\n```json\n{json_data}\n```\n" ++
    "{pdf_content_section}\n" ++
    "What is the most likely reason it's unassigned? Check: {criteria_list}.\n" ++
    "Respond with ONLY the most probable reason as a concise string. " ++
    "If you can identify a clear supplier name from the PDF content that is missing/different in JSON, " ++
    "append on a new line: SUGGESTED_FIX_DATA: \x7b\"supplier\": \"<identified_supplier_name>\"\x7d."
  criteria := [
    "Supplier field is missing or unrecognized.",
    "Key identifying information like invoice number or PO number is missing, making routing difficult.",
    "Bill_to or ship_to address information is incomplete or ambiguous."]

/-- The `SHIPTOISSUE` template.  Note that its text references both the
placeholder `{ship_to}` (first line) and `{ship_to_value}` (rule a). -/
def shiptoIssueTemplate : TemplateInfo where
  base_prompt :=
    "You are an expert invoice analyst. This invoice (file: {file_name}) is flagged for a potential ship_to address issue and is currently in 'DISPUTED' status. The 'ship_to' value in the provided JSON data is: '{ship_to}'.\n" ++
    "Invoice JSON Data:\n```json\n{json_data}\n```\n" ++
    "{pdf_content_section}\n\n" ++
    "Tasks:\n" ++
    "1. Identify the most probable reason why the 'ship_to' address might be considered an issue, based on these criteria: {criteria_list}. Respond with ONLY this reason as a concise string.\n" ++
    "2. After the reason, if you can suggest a correction for the 'ship_to' address, provide it. Follow these rules for the suggestion:\n" ++
    "   a. If the 'ship_to' value in the JSON ('{ship_to_value}') is empty, null, missing, or incomplete, AND you can confidently identify a complete and correct 'ship_to' address from the PDF content, use that identified address.\n" ++
    "   b. If the 'ship_to' value in the JSON is empty, null, or missing, AND no clear 'ship_to' address is identifiable from the PDF, BUT a 'bill_to' address is present and seems complete in the JSON data, suggest using the 'bill_to' address as the 'ship_to' address.\n" ++
    "   c. If you provide a suggested 'ship_to' address (either from PDF or by using 'bill_to'), also provide your confidence in this suggestion as a percentage (0-100).\n" ++
    "   d. Format your suggested fix (if any) on a new line after the reason, strictly as: SUGGESTED_FIX_DATA: \x7b\"ship_to\": \"<suggested_full_address_string>\", \"confidence\": <percentage_integer>\x7d\n" ++
    "If no fix can be confidently suggested according to rules a or b, only provide the reason from Task 1."
  criteria := [
    "ship_to field is empty, null, or missing in the JSON data.",
    "ship_to address in JSON seems incomplete (e.g., missing street, city, or postal code).",
    "ship_to address in JSON does not match expected format or known valid locations.",
    "ship_to address in JSON is present, but PDF content clearly shows a different or more complete ship_to address."]

/-- The template map `GEMMA_PROMPT_TEMPLATES`, keyed by report type. -/
def GEMMA_PROMPT_TEMPLATES : String → Option TemplateInfo
  | "PENDING_CONFIRMATION" => some pendingConfirmationTemplate
  | "INV_AMOUNT_VARIANCE" => some invAmountVarianceTemplate
  | "PO_NOT_FOUND" => some poNotFoundTemplate
  | "ITEM_UNMATCHED" => some itemUnmatchedTemplate
  | "UNASSIGNED" => some unassignedTemplate
  | "SHIPTOISSUE" => some shiptoIssueTemplate
  | _ => none

/-! ### Invoice records -/

/-- One element of a record's `exceptions.header` array. -/
structure HeaderException where
  exception_type : JVal
  diff : JVal

/-- An invoice record as fetched from the store.  `file_name` and
`supplier` are the string-typed fields the code reads structurally
(`none` models an absent field); the remaining fields flow through
untyped into the snapshot and prompt. -/
structure InvoiceDoc where
  file_name : Option String
  supplier : Option String
  inv_num : JVal
  total : JVal
  inv_date : JVal
  status : JVal
  pending_reason : JVal
  group_id : JVal
  ship_to : JVal
  po_num : JVal
  exceptions_header : List HeaderException

/-- Display of a value interpolated into prompt text (JavaScript string
coercion).  Scalar cases are exact; array display is approximated (the
prompt body is not claim-relevant). -/
def jvalDisplay : JVal → String
  | .jstr s => s
  | .jnum q => toString q
  | .jbool b => toString b
  | .jnull => "null"
  | .jundefined => "undefined"
  | .jarr _ => ""
  | .jobj _ => "[object Object]"

/-- JavaScript `v || d` rendered to a string for prompt interpolation. -/
def jsOrDisplay (v : JVal) (d : String) : String :=
  if v.truthy then jvalDisplay v else d

/-- Rendering of the record for the `{json_data}` placeholder.  This
approximates `JSON.stringify(invoiceData, null, 2)` (field order and
indentation differ); the serialized text only feeds prompt content and is
not claim-relevant. -/
def jsonStringifyDoc (d : InvoiceDoc) : String :=
  "\x7b \"file_name\": \"" ++ jsOrStr d.file_name "" ++ "\", \"inv_num\": " ++ jvalDisplay d.inv_num ++
  ", \"total\": " ++ jvalDisplay d.total ++ ", \"inv_date\": " ++ jvalDisplay d.inv_date ++
  ", \"status\": " ++ jvalDisplay d.status ++ ", \"pending_reason\": " ++ jvalDisplay d.pending_reason ++
  ", \"group_id\": " ++ jvalDisplay d.group_id ++ ", \"ship_to\": " ++ jvalDisplay d.ship_to ++
  ", \"po_num\": " ++ jvalDisplay d.po_num ++ " \x7d"

/-- Orchestrator analysis options (`analysisConfig`). -/
structure AnalysisConfig where
  include_pdf_content : Bool

/-! ### Prompt compiler (`constructGemmaPrompt`) -/

/-- The source's `if (promptText.includes(pat)) promptText =
promptText.replace(pat, rep)` idiom. -/
def condReplace (s pat rep : String) : String :=
  if strContainsSub s pat then jsReplace s pat rep else s

/-- The value substituted for `{exception_diff}`: the `diff` of the first
`INV_AMOUNT_VARIANCE` header exception, displayed, or "N/A". -/
def excDiffDisplay (d : InvoiceDoc) : String :=
  match d.exceptions_header.find?
      (fun ex => JVal.beq ex.exception_type (.jstr "INV_AMOUNT_VARIANCE")) with
  | some ex => jvalDisplay ex.diff
  | none => "N/A"

/-- The field substitutions of `constructGemmaPrompt`, in source order:
`{file_name}`, `{json_data}` and `{criteria_list}` unconditionally (the
source guards the criteria substitution on `templateInfo.criteria`, which
is a truthy array for every registered template), then `{current_date}`,
`{exception_diff}`, `{po_num_value}` and `{ship_to_value}` each guarded
by an `includes` test. -/
def renderTemplateFields (templateInfo : TemplateInfo) (invoiceData : InvoiceDoc)
    (today : String) : String :=
  condReplace
    (condReplace
      (condReplace
        (condReplace
          (jsReplace
            (jsReplace
              (jsReplace templateInfo.base_prompt "{file_name}"
                (jsOrStr invoiceData.file_name "N/A"))
              "{json_data}" (jsonStringifyDoc invoiceData))
            "{criteria_list}" (String.intercalate "; " templateInfo.criteria))
          "{current_date}" today)
        "{exception_diff}" (excDiffDisplay invoiceData))
      "{po_num_value}" (jsOrDisplay invoiceData.po_num "Not Provided"))
    "{ship_to_value}" (jsOrDisplay invoiceData.ship_to "Not Provided")

/-- The `{pdf_content_section}` substitution: the sentinel note verbatim
when extraction returned the too-large sentinel, the wrapped (truncated)
extracted text when evidence is present and requested, and the explicit
opt-out note otherwise. -/
def applyPdfSection (p : String) (pdfTextIfAvailable : Option String)
    (analysisConfig : AnalysisConfig) : String :=
  match pdfTextIfAvailable with
  | some t =>
    if t != "" && analysisConfig.include_pdf_content then
      if jsStartsWith t "PDF_TOO_LARGE:" then
        jsReplace p "{pdf_content_section}" ("\n(Note: " ++ t ++ ")")
      else
        jsReplace p "{pdf_content_section}"
          ("\n\nExtracted PDF Text Content (first 3000 chars for context):\nPDF_TEXT_CONTENT_START\n" ++
           jsTake t 3000 ++ "\n...(text truncated if longer)...\nPDF_TEXT_CONTENT_END")
    else
      jsReplace p "{pdf_content_section}"
        "\n(User opted out of PDF text content analysis, or PDF text was not available/extraction failed)"
  | none =>
    jsReplace p "{pdf_content_section}"
      "\n(User opted out of PDF text content analysis, or PDF text was not available/extraction failed)"

/-- The prompt compiler.  `today` stands for the clock read
`new Date().toISOString().split('T')[0]` in the source. -/
def constructGemmaPrompt (invoiceData : InvoiceDoc) (pdfTextIfAvailable : Option String)
    (reportType : String) (analysisConfig : AnalysisConfig) (today : String) : String :=
  match GEMMA_PROMPT_TEMPLATES reportType with
  | none =>
    let p := "Analyze this invoice. File: " ++ jsOrStr invoiceData.file_name "N/A" ++
      ". JSON Data: " ++ jsonStringifyDoc invoiceData ++ "."
    (match pdfTextIfAvailable with
     | some t =>
       if t != "" && analysisConfig.include_pdf_content then
         p ++ "\n\nPDF Text Content (first 2000 chars):\n" ++ jsTake t 2000 ++ "\n...(truncated if longer)"
       else p
     | none => p)
  | some templateInfo =>
    applyPdfSection (renderTemplateFields templateInfo invoiceData today)
      pdfTextIfAvailable analysisConfig

/-! ### Evidence extractor (`extractTextFromPdf`) -/

/-- Observable side effects of one pipeline run: the external-tool and
service invocations, and the pacing sleeps, in order. -/
inductive Ev where
  | pageInfo : String → Ev
  | convertPage : String → Ev
  | recognize : String → Ev
  | inferAttempt : String → Nat → Ev
  | retryWait : Nat → Ev
  | pacing : Ev
deriving DecidableEq

/-- What the file system and the PDF tool chain report for one document:
whether the file is accessible, the page count `pdfinfo` yields (`none` =
undetermined), whether `pdftoppm` produces a page-1 image, and the OCR
text (`none` = the tool errors). -/
structure PdfFile where
  present : Bool
  pageCount : Option Nat
  convertOk : Bool
  ocrText : Option String

/-- The page cap `MAX_PAGES_FOR_ANALYSIS`. -/
def MAX_PAGES_FOR_ANALYSIS : Nat := 3

/-- The too-large sentinel message returned when the page count exceeds
the cap. -/
def tooLargeMsg (name : String) (n : Nat) : String :=
  "PDF_TOO_LARGE:" ++ (" Document '" ++ name ++ "' has " ++ toString n ++
    " pages (max " ++ toString MAX_PAGES_FOR_ANALYSIS ++ " allowed). Skipping OCR.")

/-- The conversion-and-recognition tail of `extractTextFromPdf`, reached
when the page count is within the cap or undetermined. -/
def extractProceed (f : PdfFile) (name : String) : Option String × List Ev :=
  if !f.convertOk then
    -- pdftoppm produced no PNG: the function throws internally and the
    -- catch block returns null
    (none, [.pageInfo name, .convertPage name])
  else
    match f.ocrText with
    | none => (none, [.pageInfo name, .convertPage name, .recognize name])
    | some t => (some t, [.pageInfo name, .convertPage name, .recognize name])

/-- `extractTextFromPdf`: determine the page count; beyond the cap return
the sentinel string at once (no conversion, no recognition); otherwise
convert page 1 and recognize it.  A tooling failure yields `none` (the
JavaScript `null`), distinct from the sentinel. -/
def extractTextFromPdf (f : PdfFile) (name : String) : Option String × List Ev :=
  if !f.present then (none, [])  -- fsPromises.access throws before pdfinfo runs
  else
    match f.pageCount with
    | some n =>
      if n > MAX_PAGES_FOR_ANALYSIS then (some (tooLargeMsg name n), [.pageInfo name])
      else extractProceed f name
    | none => extractProceed f name

/-! ### Inference client (`callGemmaApi`) -/

/-- Outcome of one `generateContent` invocation, as classified by the
catch block: success; an error whose message carries a 429/quota signal
(with the optional `retryDelay` the service suggests, in ms); an error
whose `promptFeedback` carries a safety `blockReason`; any other error.
The constructors are disjoint: an error carrying both a rate-limit
message and a block reason is treated as blocked, as the source returns
the blocked result before consulting the rate-limit flag. -/
inductive ApiOutcome where
  | success : String → ApiOutcome
  | rateLimited : String → Option Nat → ApiOutcome
  | blocked : String → ApiOutcome
  | otherError : String → ApiOutcome
deriving DecidableEq

/-- The attempt cap `MAX_RETRIES`. -/
def MAX_RETRIES : Nat := 3

/-- The retry loop of `callGemmaApi`.  `o k` is the outcome of invocation
number `k`; `attempts` counts invocations made so far (every completed
invocation before the current one failed, so the JavaScript `attempts`
counter equals it at the loop head); `curDelay` is the doubling backoff
state (initially 60000 ms).  Returns the response string, the number of
invocations made, and the event trace. -/
def gemmaLoop (o : Nat → ApiOutcome) (fileName : String) :
    Nat → Nat → Nat → String × Nat × List Ev
  | 0, attempts, _ =>
    ("Gemma SDK call failed exhaustively for " ++ fileName ++ ".", attempts, [])
  | fuel + 1, attempts, curDelay =>
    let ev := Ev.inferAttempt fileName attempts
    match o attempts with
    | .success t => (jsTrim t, attempts + 1, [ev])
    | .blocked reason =>
      ("Gemma API call blocked due to safety settings: " ++ reason ++ ".", attempts + 1, [ev])
    | .rateLimited msg suggested =>
      let a := attempts + 1
      if a < MAX_RETRIES then
        let waitTime :=
          match suggested with
          | some w => if w != 0 then w else curDelay  -- specificRetryDelay || currentDelay
          | none => curDelay
        let r := gemmaLoop o fileName fuel a (curDelay * 2)
        (r.1, r.2.1, ev :: Ev.retryWait waitTime :: r.2.2)
      else
        ("Gemma SDK call failed after " ++ toString MAX_RETRIES ++ " attempts: " ++ msg ++ ".",
         a, [ev])
    | .otherError msg =>
      let a := attempts + 1
      if a ≥ MAX_RETRIES then
        ("Gemma SDK call failed after " ++ toString MAX_RETRIES ++ " attempts: " ++ msg ++ ".",
         a, [ev])
      else ("Gemma SDK call failed: " ++ msg ++ ".", a, [ev])

/-- `callGemmaApi`: guard on the SDK being configured, then run the retry
loop (`while (attempts < MAX_RETRIES)`, entered with `attempts = 0` and a
60-second default backoff). -/
def callGemmaApi (genAIConfigured : Bool) (o : Nat → ApiOutcome) (fileName : String) :
    String × Nat × List Ev :=
  if !genAIConfigured then
    ("Error: Gemma SDK (GoogleGenerativeAI) not initialized. Check GEMMA_API_KEY.", 0, [])
  else gemmaLoop o fileName MAX_RETRIES 0 60000

/-! ### Response parser (the `SUGGESTED_FIX_DATA:` protocol in
`analyzeInvoicesWithGemma`) -/

/-- The fix marker literal. -/
def fixDataMarker : String := "SUGGESTED_FIX_DATA:"

/-- Candidate payload isolation: the slice from the first opening brace to
the last closing brace when both exist in that order; otherwise the whole
text (the source then logs a warning and still attempts the parse). -/
def candidateJsonString (potential : String) : String :=
  match firstCharPos '{' potential.data, lastCharPos '}' potential.data with
  | some fb, some lb =>
    if fb < lb then ⟨(potential.data.take (lb + 1)).drop fb⟩ else potential
  | _, _ => potential

/-- The correction extracted from the text after the marker: parse the
candidate when it is nonempty; on parse failure the correction stays null
(the diagnosis is unaffected). -/
def fixFromPayload (potential : String) : JVal :=
  let cand := candidateJsonString potential
  if cand == "" then .jnull
  else
    match jsonParse cand with
    | some v => v
    | none => .jnull

/-- Split a raw model response into diagnosis and optional correction:
text before the first marker occurrence, trimmed, is the diagnosis; the
trimmed remainder is the correction payload.  Without a marker the whole
response is the diagnosis and the correction is null. -/
def parseGemmaResponse (gemmaResponse : String) : String × JVal :=
  match firstMatchPos fixDataMarker.data gemmaResponse.data with
  | none => (gemmaResponse, .jnull)
  | some i =>
    (jsTrim ⟨gemmaResponse.data.take i⟩,
     fixFromPayload (jsTrim ⟨gemmaResponse.data.drop (i + fixDataMarker.data.length)⟩))

/-! ### Analysis orchestrator (`analyzeInvoicesWithGemma`) -/

/-- Node `path.basename`: the last path segment, with trailing slashes
trimmed (the empty string is returned for empty input, where Node returns
"."; the orchestrator only passes nonempty names). -/
def jsBasename (s : String) : String :=
  let rev := s.data.reverse.dropWhile (fun c => c == '/')
  if rev.isEmpty then (if s.data.isEmpty then "" else "/")
  else ⟨(rev.takeWhile (fun c => c != '/')).reverse⟩

/-- The fixed inter-record delay `API_CALL_DELAY_MS`. -/
def API_CALL_DELAY_MS : Nat := 5000

/-- The fields stored in `original_data_snippet`.  The source's object
literal contains keys `inv_num`, `total`, `inv_date`, `status`,
`pending_reason` and `group_id` only; the `ship_to` field here records
what a property read of that key yields, namely `undefined`. -/
structure OriginalDataSnippet where
  inv_num : JVal
  total : JVal
  inv_date : JVal
  status : JVal
  pending_reason : JVal
  group_id : JVal
  ship_to : JVal

/-- One stored analysis artifact (one value of `analysisResults`). -/
structure AnalysisResult where
  report_type : String
  supplier : String
  reason_from_gemma : String
  suggested_fix_data : JVal
  original_data_snippet : OriginalDataSnippet

/-- One element of `invoicesToAnalyze`: a fetched record (possibly
absent) together with the report type it was fetched under. -/
structure AnalyzeItem where
  doc : Option InvoiceDoc
  reportType : String

/-- The orchestrator's external collaborators: the file system and PDF
tool chain (keyed by the basename handed to `extractTextFromPdf`), the
inference service (keyed by prompt text, invoice file name and invocation
number), the SDK-configured flag, and the clock date. -/
structure OrchEnv where
  pdf : String → PdfFile
  gemma : String → String → Nat → ApiOutcome
  genAIConfigured : Bool
  today : String

/-- The snapshot built on the normal path: all six keys from the record,
and no `ship_to` key (so reading it yields `undefined`). -/
def mkSnippet (d : InvoiceDoc) : OriginalDataSnippet :=
  { inv_num := d.inv_num, total := d.total, inv_date := d.inv_date, status := d.status,
    pending_reason := d.pending_reason, group_id := d.group_id,
    ship_to := .jundefined }

/-- The snapshot built on the skip path (`{ inv_num: ..., total: ... }`):
only those two keys are present; the rest read as `undefined`. -/
def skipSnippet (docOpt : Option InvoiceDoc) : OriginalDataSnippet :=
  { inv_num := match docOpt with | some d => d.inv_num | none => .jundefined,
    total := match docOpt with | some d => d.total | none => .jundefined,
    inv_date := .jundefined, status := .jundefined, pending_reason := .jundefined,
    group_id := .jundefined, ship_to := .jundefined }

/-- The extraction phase of one record: run `extractTextFromPdf` on the
downloaded file when PDF content is included, otherwise no extraction
(the `pdfTextContent` variable stays null). -/
def extStep (env : OrchEnv) (cfg : AnalysisConfig) (fn : String) : Option String × List Ev :=
  if cfg.include_pdf_content then
    extractTextFromPdf (env.pdf (jsBasename fn)) (jsBasename fn)
  else (none, [])

/-- The value of the `analysisReason` variable after the extraction
block: the sentinel when extraction returned a truthy string starting
with the marker, the extraction-failed message when it returned null, and
the initial "Analysis not performed." otherwise (including when PDF
content is not requested). -/
def analysisReason0 (env : OrchEnv) (cfg : AnalysisConfig) (fn : String) : String :=
  if cfg.include_pdf_content then
    match (extStep env cfg fn).1 with
    | some t => if t != "" && jsStartsWith t "PDF_TOO_LARGE:" then t else "Analysis not performed."
    | none => "PDF text extraction failed."
  else "Analysis not performed."

/-- The short-circuit test guarding prompting and inference. -/
def skipInference (env : OrchEnv) (cfg : AnalysisConfig) (fn : String) : Bool :=
  jsStartsWith (analysisReason0 env cfg fn) "PDF_TOO_LARGE:" ||
    analysisReason0 env cfg fn == "PDF text extraction failed."

/-- Processing of one record with a present document and truthy file
name: optional extraction, the too-large / extraction-failed short
circuit, otherwise prompt compilation, inference and response parsing;
returns the stored entry and the record's event trace. -/
def mainRecordStep (env : OrchEnv) (cfg : AnalysisConfig) (d : InvoiceDoc) (fn : String)
    (reportType : String) : (String × AnalysisResult) × List Ev :=
  if skipInference env cfg fn then
    ((fn, { report_type := reportType, supplier := jsOrStr d.supplier "N/A",
            reason_from_gemma := analysisReason0 env cfg fn, suggested_fix_data := .jnull,
            original_data_snippet := mkSnippet d }), (extStep env cfg fn).2)
  else
    let prompt := constructGemmaPrompt d (extStep env cfg fn).1 reportType cfg env.today
    let call := callGemmaApi env.genAIConfigured (env.gemma prompt fn) fn
    let parsed := parseGemmaResponse call.1
    ((fn, { report_type := reportType, supplier := jsOrStr d.supplier "N/A",
            reason_from_gemma := parsed.1, suggested_fix_data := parsed.2,
            original_data_snippet := mkSnippet d }), (extStep env cfg fn).2 ++ call.2.2)

/-- Processing of one element of the candidate list: records missing
their document or a truthy `file_name` are stored immediately with the
skip diagnosis; otherwise `mainRecordStep` runs. -/
def recordStep (env : OrchEnv) (cfg : AnalysisConfig) (item : AnalyzeItem) (i : Nat) :
    (String × AnalysisResult) × List Ev :=
  let skip : (String × AnalysisResult) × List Ev :=
    ((jsOrStr (item.doc.bind (fun d => d.file_name)) ("unknown_file_at_index_" ++ toString i),
      { report_type := item.reportType,
        supplier := jsOrStr (item.doc.bind (fun d => d.supplier)) "N/A",
        reason_from_gemma := "Skipped: Missing document data or file_name.",
        suggested_fix_data := .jnull,
        original_data_snippet := skipSnippet item.doc }), [])
  match item.doc with
  | none => skip
  | some d =>
    match d.file_name with
    | none => skip
    | some fn => if fn == "" then skip else mainRecordStep env cfg d fn item.reportType

/-- The orchestrator loop: a pacing sleep before every iteration with
index `i > 0`, then the record's processing; entries accumulate in
iteration order (the JavaScript object keyed by file name, with a later
duplicate name shadowing an earlier one on read). -/
def analyzeGo (env : OrchEnv) (cfg : AnalysisConfig) :
    List AnalyzeItem → Nat → List (String × AnalysisResult) × List Ev
  | [], _ => ([], [])
  | item :: rest, i =>
    let step := recordStep env cfg item i
    let tail := analyzeGo env cfg rest (i + 1)
    (step.1 :: tail.1, (if i > 0 then [Ev.pacing] else []) ++ step.2 ++ tail.2)

/-- `analyzeInvoicesWithGemma`: run the loop from index 0.  Persisting
the result object (`writeAnalysisResultsToFile`) is modelled by
returning the collected entries. -/
def analyzeInvoicesWithGemma (env : OrchEnv) (invoicesToAnalyze : List AnalyzeItem)
    (cfg : AnalysisConfig) : List (String × AnalysisResult) × List Ev :=
  analyzeGo env cfg invoicesToAnalyze 0

/-- The event trace of one record's processing.  It does not depend on
the loop index (the index only names the fallback key of a skipped
record). -/
def recordTrace (env : OrchEnv) (cfg : AnalysisConfig) (item : AnalyzeItem) : List Ev :=
  (recordStep env cfg item 0).2

/-! ### Update planner (`prepareUpdatePlan`, `prompts.js`) -/

/-- The confidence gate `CONFIDENCE_THRESHOLD`. -/
def CONFIDENCE_THRESHOLD : Rat := 90

/-- Numeric comparison `v >= t` on a modelled value (the source checks
`typeof v === 'number'` first; a non-number compares false here). -/
def jnumGe : JVal → Rat → Bool
  | .jnum q, t => t ≤ q
  | _, _ => false

/-- The planner's eligibility test on one analysis result: update-eligible
report type, a truthy correction object with a truthy `ship_to`, and a
numeric confidence meeting the threshold. -/
def fixEligible (result : AnalysisResult) : Bool :=
  result.report_type == "SHIPTOISSUE" &&
  result.suggested_fix_data.truthy &&
  (result.suggested_fix_data.jget "ship_to").truthy &&
  (result.suggested_fix_data.jget "confidence").isNumber &&
  jnumGe (result.suggested_fix_data.jget "confidence") CONFIDENCE_THRESHOLD

/-- The planner's identifying-key check on the snapshot
(`original_data_snippet && ...inv_num && ...group_id`; the snapshot
object itself is always present in the stored artifact). -/
def snippetKeysOk (result : AnalysisResult) : Bool :=
  result.original_data_snippet.inv_num.truthy && result.original_data_snippet.group_id.truthy

/-- One planned update, as pushed by `prepareUpdatePlan`. -/
structure UpdatePlanItem where
  file_name : String
  group_id : JVal
  inv_num : JVal
  current_ship_to : JVal
  suggested_ship_to : JVal
  confidence : JVal

/-- The item built from an eligible result:
`current_ship_to` is `result.original_data_snippet.ship_to || null`. -/
def mkPlanItem (fileName : String) (result : AnalysisResult) : UpdatePlanItem :=
  { file_name := fileName,
    group_id := result.original_data_snippet.group_id,
    inv_num := result.original_data_snippet.inv_num,
    current_ship_to := jsOr result.original_data_snippet.ship_to .jnull,
    suggested_ship_to := result.suggested_fix_data.jget "ship_to",
    confidence := result.suggested_fix_data.jget "confidence" }

/-- `prepareUpdatePlan` over the entries of the analysis-results object
(in insertion order): eligible results with both identifying keys yield
one plan item each; everything else yields none. -/
def prepareUpdatePlan : List (String × AnalysisResult) → List UpdatePlanItem
  | [] => []
  | (fileName, result) :: rest =>
    if fixEligible result then
      if snippetKeysOk result then mkPlanItem fileName result :: prepareUpdatePlan rest
      else prepareUpdatePlan rest
    else prepareUpdatePlan rest

/-! ### Guarded updater (`executeDatabaseUpdates`, `prompts.js`) -/

/-- MongoDB equality of a stored field value against a query value: a
`null` query value matches a `null` field and a missing field alike;
any other query value matches by equality. -/
def mongoEq (docVal queryVal : JVal) : Bool :=
  match queryVal with
  | .jnull => JVal.beq docVal .jnull || JVal.beq docVal .jundefined
  | q => JVal.beq docVal q

/-- The conditional-write filter built for one plan item: identifying
keys, the exception-type/status pair that justified analysis, and the
`$or` over `ship_to` being absent, empty, null, or equal to the value
captured at analysis time. -/
def updateFilterMatches (doc : InvoiceDoc) (item : UpdatePlanItem) : Bool :=
  mongoEq doc.group_id item.group_id &&
  mongoEq doc.inv_num item.inv_num &&
  doc.exceptions_header.any (fun ex => mongoEq ex.exception_type (.jstr "PO_NOT_FOUND")) &&
  mongoEq doc.status (.jstr "DISPUTED") &&
  (JVal.beq doc.ship_to .jundefined ||
   mongoEq doc.ship_to (.jstr "") ||
   mongoEq doc.ship_to .jnull ||
   mongoEq doc.ship_to item.current_ship_to)

/-- `collection.updateOne(filter, { $set: { ship_to: ... } })`: the first
matching document (if any) gets its `ship_to` set; returns the new
collection and the matched/modified counts (`modifiedCount` is 0 when the
set does not change the stored value). -/
def mongoUpdateOne : List InvoiceDoc → UpdatePlanItem → List InvoiceDoc × Nat × Nat
  | [], _ => ([], 0, 0)
  | d :: ds, item =>
    if updateFilterMatches d item then
      ({ d with ship_to := item.suggested_ship_to } :: ds, 1,
       if JVal.beq d.ship_to item.suggested_ship_to then 0 else 1)
    else
      let r := mongoUpdateOne ds item
      (d :: r.1, r.2.1, r.2.2)

/-- The reason string recorded for a not-applied item. -/
def noMatchReason : String := "No matching document found or no modification needed."

/-- The updater's aggregated run statistics. -/
structure UpdateStats where
  successCount : Nat
  failureCount : Nat
  failedUpdates : List (UpdatePlanItem × String)

/-- The updater loop: one conditional write per item; matched-and-modified
increments the success count, matched-but-unmodified changes nothing, no
match appends to the failure list with `noMatchReason` and increments the
failure count; in every case the loop continues with the next item. -/
def execUpdatesGo : List InvoiceDoc → List UpdatePlanItem → UpdateStats →
    UpdateStats × List InvoiceDoc
  | docs, [], s => (s, docs)
  | docs, item :: rest, s =>
    let r := mongoUpdateOne docs item
    if r.2.1 > 0 && r.2.2 > 0 then
      execUpdatesGo r.1 rest { s with successCount := s.successCount + 1 }
    else if r.2.1 > 0 && r.2.2 == 0 then
      execUpdatesGo r.1 rest s
    else
      execUpdatesGo r.1 rest
        { s with failureCount := s.failureCount + 1,
                 failedUpdates := s.failedUpdates ++ [(item, noMatchReason)] }

/-- The updater's execution mode. -/
inductive UpdateMode where
  | all : UpdateMode
  | first : UpdateMode
deriving DecidableEq

/-- `executeDatabaseUpdates`: restrict the plan per the chosen mode, then
run the loop with zeroed statistics. -/
def executeDatabaseUpdates (docs : List InvoiceDoc) (updatePlan : List UpdatePlanItem)
    (mode : UpdateMode) : UpdateStats × List InvoiceDoc :=
  let itemsToUpdate := match mode with | .first => updatePlan.take 1 | .all => updatePlan
  execUpdatesGo docs itemsToUpdate ⟨0, 0, []⟩

/-! ### Auxiliary notions used by the statements -/

/-- The `ship_to` disjunct of the guarded filter without the
snapshot clause: the current value is absent, empty or null. -/
def shipAbsentEmptyNull : JVal → Bool
  | .jundefined => true
  | .jnull => true
  | .jstr s => s == ""
  | _ => false

/-- `pat` occurs in `l` at position `p`. -/
def OccursAt (l pat : List Char) (p : Nat) : Prop :=
  (l.drop p).take pat.length = pat

/-- Side conditions under which an occurrence of `x` can never overlap an
occurrence of `y`: both start with an opening brace, neither contains
another opening brace, and neither is a leading piece of the other. -/
def SafePat (x y : List Char) : Prop :=
  x.head? = some '{' ∧ y.head? = some '{' ∧ '{' ∉ x.drop 1 ∧ '{' ∉ y.drop 1 ∧
  x.take y.length ≠ y ∧ y.take x.length ≠ x

/-- Recognizer for inference-call events. -/
def isInferAttempt : Ev → Bool
  | .inferAttempt _ _ => true
  | _ => false

/-- What holds of the entry the orchestrator stores for one candidate:
its report type is the candidate's, and if the candidate had a document
with a truthy file name, PDF content was requested and extraction failed
(returned null), then the stored diagnosis is the extraction-failed
message with a null correction. -/
def recordOk (env : OrchEnv) (cfg : AnalysisConfig) (it : AnalyzeItem)
    (e : String × AnalysisResult) : Prop :=
  e.2.report_type = it.reportType ∧
  ∀ d fn, it.doc = some d → d.file_name = some fn → (fn == "") = false →
    cfg.include_pdf_content = true →
    (extractTextFromPdf (env.pdf (jsBasename fn)) (jsBasename fn)).1 = none →
    e.2.reason_from_gemma = "PDF text extraction failed." ∧
    e.2.suggested_fix_data = .jnull

/-! ### Concrete example inputs used by witnesses and counterexamples -/

/-- A `SHIPTOISSUE` record whose `ship_to` is the empty string (a value
the `SHIPTOISSUE` fetch query admits). -/
def exDoc : InvoiceDoc :=
  { file_name := some "inv1.pdf", supplier := some "ACME", inv_num := .jstr "I1",
    total := .jnum 10, inv_date := .jstr "2025-01-01", status := .jstr "DISPUTED",
    pending_reason := .jnull, group_id := .jstr "G1", ship_to := .jstr "",
    po_num := .jnull, exceptions_header := [⟨.jstr "PO_NOT_FOUND", .jnull⟩] }

/-- An environment whose inference service confidently suggests a
`ship_to` fix with confidence 95. -/
def exEnv : OrchEnv :=
  { pdf := fun _ => ⟨false, none, false, none⟩,
    gemma := fun _ _ _ =>
      .success "Address mismatch\nSUGGESTED_FIX_DATA: \x7b\"ship_to\": \"12 Oak St\", \"confidence\": 95\x7d",
    genAIConfigured := true, today := "2026-01-01" }

/-- A PDF whose page count (7) exceeds the 3-page cap. -/
def exPdfBig : PdfFile := ⟨true, some 7, true, some "page text"⟩

/-- An environment whose PDF tool chain reports 7 pages for every
document (beyond the 3-page cap). -/
def exEnvBig : OrchEnv :=
  { pdf := fun _ => exPdfBig,
    gemma := fun _ _ _ => .success "ok",
    genAIConfigured := true, today := "2026-01-01" }

/-- A concrete update-plan item (null `current_ship_to`, as the planner
always produces). -/
def exPlanItem : UpdatePlanItem :=
  ⟨"f.pdf", .jstr "G1", .jstr "I1", .jnull, .jstr "12 Oak St", .jnum 95⟩

/-- A stored document matching `exPlanItem`'s guarded filter, with a null
`ship_to`. -/
def exMatchDoc : InvoiceDoc :=
  { file_name := some "inv1.pdf", supplier := some "ACME", inv_num := .jstr "I1",
    total := .jnum 10, inv_date := .jnull, status := .jstr "DISPUTED",
    pending_reason := .jnull, group_id := .jstr "G1", ship_to := .jnull,
    po_num := .jnull, exceptions_header := [⟨.jstr "PO_NOT_FOUND", .jnull⟩] }

/-- `exMatchDoc` after the guarded update applied. -/
def exUpdatedDoc : InvoiceDoc := { exMatchDoc with ship_to := .jstr "12 Oak St" }

/-- A stored analysis result that passes the planner's gate. -/
def exEligibleResult : AnalysisResult :=
  { report_type := "SHIPTOISSUE", supplier := "ACME", reason_from_gemma := "Address mismatch",
    suggested_fix_data := .jobj [("ship_to", .jstr "12 Oak St"), ("confidence", .jnum 95)],
    original_data_snippet :=
      ⟨.jstr "I1", .jnum 10, .jstr "2025-01-01", .jstr "DISPUTED", .jnull, .jstr "G1", .jundefined⟩ }

/-- A one-entry analysis-results object. -/
def exResults : List (String × AnalysisResult) := [("f.pdf", exEligibleResult)]

/-- A candidate-list element with no document (the skip path). -/
def exSkipItem : AnalyzeItem := ⟨none, "SHIPTOISSUE"⟩

/-- A candidate-list element holding `exDoc`. -/
def exDocItem : AnalyzeItem := ⟨some exDoc, "SHIPTOISSUE"⟩

/-! # Theorems -/

/-! ### Basic lemmas about the value model and string utilities -/

mutual

/-- `JVal.beq` is reflexive. -/
theorem JVal.beq_refl : ∀ v : JVal, JVal.beq v v = true
  | .jundefined => rfl
  | .jnull => rfl
  | .jbool b => by simp [JVal.beq]
  | .jnum q => by simp [JVal.beq]
  | .jstr s => by simp [JVal.beq]
  | .jarr a => by simp [JVal.beq, JVal.beqList_refl a]
  | .jobj a => by simp [JVal.beq, JVal.beqFields_refl a]

/-- `JVal.beqList` is reflexive. -/
theorem JVal.beqList_refl : ∀ l : List JVal, JVal.beqList l l = true
  | [] => rfl
  | a :: as => by simp [JVal.beqList, JVal.beq_refl a, JVal.beqList_refl as]

/-- `JVal.beqFields` is reflexive. -/
theorem JVal.beqFields_refl : ∀ l : List (String × JVal), JVal.beqFields l l = true
  | [] => rfl
  | (k, v) :: as => by simp [JVal.beqFields, JVal.beq_refl v, JVal.beqFields_refl as]

end

/-- `beq` against the `null` constant decides equality. -/
theorem JVal.beq_jnull_iff (v : JVal) : JVal.beq v .jnull = true ↔ v = .jnull := by
  cases v <;> simp [JVal.beq]

/-- `beq` against the `undefined` constant decides equality. -/
theorem JVal.beq_jundefined_iff (v : JVal) : JVal.beq v .jundefined = true ↔ v = .jundefined := by
  cases v <;> simp [JVal.beq]

/-- `beq` against a string constant decides equality. -/
theorem JVal.beq_jstr_iff (v : JVal) (s : String) :
    JVal.beq v (.jstr s) = true ↔ v = .jstr s := by
  cases v <;> simp [JVal.beq]

/-- A leading piece is recognized by `charsPre`. -/
theorem charsPre_append (p r : List Char) : charsPre p (p ++ r) = true := by
  induction p with
  | nil => rfl
  | cons a as ih => simp [charsPre, ih]

/-- `String.append` concatenates the character lists. -/
theorem strData_append (a b : String) : (a ++ b).data = a.data ++ b.data := rfl

/-- A string whose data is a concatenation with nonempty head is not empty. -/
theorem strApp_ne_empty (a b : String) (h : a.data ≠ []) : a ++ b ≠ "" := by
  intro he
  have hd : a.data ++ b.data = [] := congrArg String.data he
  rw [List.append_eq_nil] at hd
  exact h hd.1

/-- The sentinel message starts with the marker. -/
theorem tooLargeMsg_startsWith (name : String) (n : Nat) :
    jsStartsWith (tooLargeMsg name n) "PDF_TOO_LARGE:" = true := by
  unfold tooLargeMsg jsStartsWith
  rw [strData_append]
  exact charsPre_append _ _

/-- The sentinel message is not the empty string. -/
theorem tooLargeMsg_ne_empty (name : String) (n : Nat) : tooLargeMsg name n ≠ "" := by
  unfold tooLargeMsg
  exact strApp_ne_empty _ _ (by decide)

/-- Zipping a list with itself pairs equal elements. -/
theorem zip_self_eq {α : Type} : ∀ (l : List α) (a b : α), (a, b) ∈ l.zip l → a = b
  | [], _, _, h => by cases h
  | x :: xs, a, b, h => by
    rw [List.zip_cons_cons, List.mem_cons] at h
    rcases h with h | h
    · rw [Prod.mk.injEq] at h
      exact h.1.trans h.2.symm
    · exact zip_self_eq xs a b h

/-! ### C1: the guarded conditional write -/

/-- A MongoDB match against query value `q` means equality with `q`, or,
when `q` is null, a null or missing stored value. -/
theorem mongoEq_elim (v q : JVal) (h : mongoEq v q = true) :
    JVal.beq v q = true ∨ v = .jnull ∨ v = .jundefined := by
  cases q with
  | jnull =>
    right
    unfold mongoEq at h
    rw [Bool.or_eq_true, JVal.beq_jnull_iff, JVal.beq_jundefined_iff] at h
    exact h
  | jundefined => exact Or.inl h
  | jbool b => exact Or.inl h
  | jnum q' => exact Or.inl h
  | jstr s => exact Or.inl h
  | jarr a => exact Or.inl h
  | jobj a => exact Or.inl h

/-- `updateOne` only ever rewrites a document that matched the filter:
any position at which the collection changed held a matching document. -/
theorem mongoUpdateOne_mem_changed :
    ∀ (docs : List InvoiceDoc) (item : UpdatePlanItem) (d d' : InvoiceDoc),
      (d, d') ∈ docs.zip (mongoUpdateOne docs item).1 → d' ≠ d →
      updateFilterMatches d item = true
  | [], _, _, _, h, _ => by cases h
  | x :: xs, item, d, d', h, hne => by
    by_cases hm : updateFilterMatches x item = true
    · simp only [mongoUpdateOne, hm, if_true] at h
      rw [List.zip_cons_cons, List.mem_cons] at h
      rcases h with h | h
      · rw [Prod.mk.injEq] at h
        rw [h.1]
        exact hm
      · exact absurd (zip_self_eq xs d d' h).symm hne
    · rw [Bool.not_eq_true] at hm
      simp only [mongoUpdateOne, hm, Bool.false_eq_true, if_false] at h
      rw [List.zip_cons_cons, List.mem_cons] at h
      rcases h with h | h
      · rw [Prod.mk.injEq] at h
        exact absurd (h.1.trans h.2.symm).symm hne
      · exact mongoUpdateOne_mem_changed xs item d d' h hne

/-- C1: every guarded update executed by the updater carries a filter
requiring the identifying keys, the `PO_NOT_FOUND`/`DISPUTED` pair that
justified analysis, and `ship_to` being absent, empty, null or equal to
the value captured at analysis time; consequently a document the write
modified had, before the write, a `ship_to` that was absent/empty/null or
equal to the plan item's `current_ship_to`. -/
theorem guardedUpdateNeverClobbers (item : UpdatePlanItem) (docs : List InvoiceDoc)
    (d d' : InvoiceDoc) (hmem : (d, d') ∈ docs.zip (mongoUpdateOne docs item).1)
    (hne : d' ≠ d) :
    updateFilterMatches d item = true ∧
    mongoEq d.group_id item.group_id = true ∧
    mongoEq d.inv_num item.inv_num = true ∧
    d.exceptions_header.any (fun ex => mongoEq ex.exception_type (.jstr "PO_NOT_FOUND")) = true ∧
    mongoEq d.status (.jstr "DISPUTED") = true ∧
    (shipAbsentEmptyNull d.ship_to = true ∨ JVal.beq d.ship_to item.current_ship_to = true) := by
  have hm := mongoUpdateOne_mem_changed docs item d d' hmem hne
  refine ⟨hm, ?_⟩
  unfold updateFilterMatches at hm
  simp only [Bool.and_eq_true] at hm
  obtain ⟨⟨⟨⟨h1, h2⟩, h3⟩, h4⟩, h5⟩ := hm
  refine ⟨h1, h2, h3, h4, ?_⟩
  simp only [Bool.or_eq_true] at h5
  rcases h5 with ((hu | he) | hn) | hc
  · rw [JVal.beq_jundefined_iff] at hu
    rw [hu]
    exact Or.inl rfl
  · rcases mongoEq_elim _ _ he with h | h | h
    · rw [JVal.beq_jstr_iff] at h
      rw [h]
      exact Or.inl (by decide)
    · rw [h]; exact Or.inl rfl
    · rw [h]; exact Or.inl rfl
  · rcases mongoEq_elim _ _ hn with h | h | h
    · rw [JVal.beq_jnull_iff] at h
      rw [h]
      exact Or.inl rfl
    · rw [h]; exact Or.inl rfl
    · rw [h]; exact Or.inl rfl
  · rcases mongoEq_elim _ _ hc with h | h | h
    · exact Or.inr h
    · rw [h]; exact Or.inl rfl
    · rw [h]; exact Or.inl rfl

/-- Witness for C1 at a concrete collection: a single matching document
with null `ship_to` is updated, and the theorem instantiates. -/
theorem guardedUpdateNeverClobbers_witness :
    ((exMatchDoc, exUpdatedDoc) ∈ [exMatchDoc].zip (mongoUpdateOne [exMatchDoc] exPlanItem).1 ∧
      exUpdatedDoc ≠ exMatchDoc) ∧
    (shipAbsentEmptyNull exMatchDoc.ship_to = true ∨
      JVal.beq exMatchDoc.ship_to exPlanItem.current_ship_to = true) := by
  have hmem : (exMatchDoc, exUpdatedDoc) ∈ [exMatchDoc].zip (mongoUpdateOne [exMatchDoc] exPlanItem).1 := by
    rw [show (mongoUpdateOne [exMatchDoc] exPlanItem).1 = [exUpdatedDoc] from rfl]
    exact List.mem_singleton.mpr rfl
  have hne : exUpdatedDoc ≠ exMatchDoc := by
    intro h
    have h2 := congrArg InvoiceDoc.ship_to h
    simp [exUpdatedDoc, exMatchDoc] at h2
  exact ⟨⟨hmem, hne⟩,
    (guardedUpdateNeverClobbers exPlanItem [exMatchDoc] exMatchDoc exUpdatedDoc hmem hne).2.2.2.2.2⟩

/-! ### C2: the planner's confidence gate -/

/-- An eligible result carries a numeric confidence at or above the
threshold. -/
theorem fixEligible_confidence (r : AnalysisResult) (he : fixEligible r = true) :
    ∃ q : Rat, r.suggested_fix_data.jget "confidence" = .jnum q ∧ CONFIDENCE_THRESHOLD ≤ q := by
  unfold fixEligible at he
  simp only [Bool.and_eq_true] at he
  obtain ⟨⟨⟨⟨_, _⟩, _⟩, hnum⟩, hge⟩ := he
  cases hc : r.suggested_fix_data.jget "confidence" with
  | jnum q =>
    refine ⟨q, rfl, ?_⟩
    rw [hc] at hge
    exact of_decide_eq_true hge
  | jundefined => rw [hc] at hnum; exact absurd hnum (by simp [JVal.isNumber])
  | jnull => rw [hc] at hnum; exact absurd hnum (by simp [JVal.isNumber])
  | jbool b => rw [hc] at hnum; exact absurd hnum (by simp [JVal.isNumber])
  | jstr s => rw [hc] at hnum; exact absurd hnum (by simp [JVal.isNumber])
  | jarr a => rw [hc] at hnum; exact absurd hnum (by simp [JVal.isNumber])
  | jobj o => rw [hc] at hnum; exact absurd hnum (by simp [JVal.isNumber])

/-- C2: every item of an update plan has a numeric confidence of at least
the threshold (90), and originates from an entry whose result passed the
planner's full gate (update-eligible report type, truthy correction with
truthy `ship_to`, numeric confidence at or above threshold, identifying
keys present); an entry failing any of those checks contributes no
item. -/
theorem planConfidenceGate :
    ∀ (results : List (String × AnalysisResult)) (item : UpdatePlanItem),
      item ∈ prepareUpdatePlan results →
      (∃ q : Rat, item.confidence = .jnum q ∧ CONFIDENCE_THRESHOLD ≤ q) ∧
      ∃ p ∈ results, item.file_name = p.1 ∧ fixEligible p.2 = true ∧
        snippetKeysOk p.2 = true ∧ item = mkPlanItem p.1 p.2
  | [], item, hmem => absurd hmem (by simp [prepareUpdatePlan])
  | (fn, r) :: rest, item, hmem => by
    by_cases he : fixEligible r = true
    · by_cases hk : snippetKeysOk r = true
      · simp only [prepareUpdatePlan, he, hk, if_true] at hmem
        rw [List.mem_cons] at hmem
        rcases hmem with h | h
        · subst h
          refine ⟨?_, (fn, r), List.mem_cons_self _ _, rfl, he, hk, rfl⟩
          obtain ⟨q, hq, hge⟩ := fixEligible_confidence r he
          exact ⟨q, by simp [mkPlanItem, hq], hge⟩
        · obtain ⟨hconf, p, hp, hrest⟩ := planConfidenceGate rest item h
          exact ⟨hconf, p, List.mem_cons_of_mem _ hp, hrest⟩
      · rw [Bool.not_eq_true] at hk
        simp only [prepareUpdatePlan, he, hk, if_true, Bool.false_eq_true, if_false] at hmem
        obtain ⟨hconf, p, hp, hrest⟩ := planConfidenceGate rest item hmem
        exact ⟨hconf, p, List.mem_cons_of_mem _ hp, hrest⟩
    · rw [Bool.not_eq_true] at he
      simp only [prepareUpdatePlan, he, Bool.false_eq_true, if_false] at hmem
      obtain ⟨hconf, p, hp, hrest⟩ := planConfidenceGate rest item hmem
      exact ⟨hconf, p, List.mem_cons_of_mem _ hp, hrest⟩

/-- Witness for C2: a concrete eligible result yields a plan item whose
confidence is the number 95, at least 90. -/
theorem planConfidenceGate_witness :
    mkPlanItem "f.pdf" exEligibleResult ∈ prepareUpdatePlan exResults ∧
    ∃ q : Rat, (mkPlanItem "f.pdf" exEligibleResult).confidence = .jnum q ∧
      CONFIDENCE_THRESHOLD ≤ q := by
  have hmem : mkPlanItem "f.pdf" exEligibleResult ∈ prepareUpdatePlan exResults := by
    rw [show prepareUpdatePlan exResults = [mkPlanItem "f.pdf" exEligibleResult] from rfl]
    exact List.mem_singleton.mpr rfl
  exact ⟨hmem, (planConfidenceGate exResults _ hmem).1⟩

/-! ### C5: the inference client's retry policy -/

/-- The retry loop makes at most `attempts + fuel` invocations. -/
theorem gemmaLoop_calls_le (o : Nat → ApiOutcome) (f : String) :
    ∀ (fuel attempts cur : Nat), (gemmaLoop o f fuel attempts cur).2.1 ≤ attempts + fuel
  | 0, attempts, cur => by simp [gemmaLoop]
  | fuel + 1, attempts, cur => by
    cases h : o attempts with
    | success t => simp [gemmaLoop, h]
    | blocked r => simp [gemmaLoop, h]
    | otherError m =>
      simp only [gemmaLoop, h]
      split <;> simp
    | rateLimited m sd =>
      simp only [gemmaLoop, h]
      by_cases hlt : attempts + 1 < MAX_RETRIES
      · rw [if_pos hlt]
        show (gemmaLoop o f fuel (attempts + 1) (cur * 2)).2.1 ≤ attempts + (fuel + 1)
        have := gemmaLoop_calls_le o f fuel (attempts + 1) (cur * 2)
        omega
      · rw [if_neg hlt]
        simp

/-- Every invocation that was followed by a further invocation had a
rate-limited outcome: only rate-limit errors are retried. -/
theorem gemmaLoop_retry_rateLimited (o : Nat → ApiOutcome) (f : String) :
    ∀ (fuel attempts cur k : Nat), attempts ≤ k →
      k + 1 < (gemmaLoop o f fuel attempts cur).2.1 →
      ∃ m sd, o k = .rateLimited m sd
  | 0, attempts, cur, k, hle, hk => by
    simp [gemmaLoop] at hk
    omega
  | fuel + 1, attempts, cur, k, hle, hk => by
    cases h : o attempts with
    | success t =>
      simp [gemmaLoop, h] at hk
      omega
    | blocked r =>
      simp [gemmaLoop, h] at hk
      omega
    | otherError m =>
      simp only [gemmaLoop, h] at hk
      split at hk <;> simp at hk <;> omega
    | rateLimited m sd =>
      by_cases hlt : attempts + 1 < MAX_RETRIES
      · have hk' : k + 1 < (gemmaLoop o f fuel (attempts + 1) (cur * 2)).2.1 := by
          simpa [gemmaLoop, h, hlt] using hk
        rcases Nat.eq_or_lt_of_le hle with heq | hlt2
        · exact ⟨m, sd, heq ▸ h⟩
        · exact gemmaLoop_retry_rateLimited o f fuel (attempts + 1) (cur * 2) k hlt2 hk'
      · simp [gemmaLoop, h, hlt] at hk
        omega

/-- A safety-blocked first invocation returns the terminal blocked result
after exactly one invocation. -/
theorem callGemma_blocked (o : Nat → ApiOutcome) (f reason : String)
    (h : o 0 = .blocked reason) :
    callGemmaApi true o f =
      ("Gemma API call blocked due to safety settings: " ++ reason ++ ".", 1,
       [Ev.inferAttempt f 0]) := by
  simp [callGemmaApi, gemmaLoop, MAX_RETRIES, h]

/-- A first invocation failing with a non-rate-limit, non-safety error
returns the terminal failure after exactly one invocation. -/
theorem callGemma_otherError (o : Nat → ApiOutcome) (f msg : String)
    (h : o 0 = .otherError msg) :
    callGemmaApi true o f =
      ("Gemma SDK call failed: " ++ msg ++ ".", 1, [Ev.inferAttempt f 0]) := by
  simp [callGemmaApi, gemmaLoop, MAX_RETRIES, h]

/-- C5: the inference client makes at most 3 invocations; every
invocation that is retried was rate-limited; a safety-blocked call
returns the terminal blocked result after exactly 1 invocation; any other
error returns a terminal failure after exactly 1 invocation. -/
theorem gemmaRetryPolicy (genAIok : Bool) (o : Nat → ApiOutcome) (fileName : String) :
    (callGemmaApi genAIok o fileName).2.1 ≤ MAX_RETRIES ∧
    (∀ k, k + 1 < (callGemmaApi genAIok o fileName).2.1 → ∃ m sd, o k = .rateLimited m sd) ∧
    (∀ reason, genAIok = true → o 0 = .blocked reason →
      (callGemmaApi genAIok o fileName).2.1 = 1 ∧
      (callGemmaApi genAIok o fileName).1 =
        "Gemma API call blocked due to safety settings: " ++ reason ++ ".") ∧
    (∀ msg, genAIok = true → o 0 = .otherError msg →
      (callGemmaApi genAIok o fileName).2.1 = 1 ∧
      (callGemmaApi genAIok o fileName).1 = "Gemma SDK call failed: " ++ msg ++ ".") := by
  refine ⟨?_, ?_, ?_, ?_⟩
  · cases genAIok
    · simp [callGemmaApi, MAX_RETRIES]
    · have := gemmaLoop_calls_le o fileName MAX_RETRIES 0 60000
      simpa [callGemmaApi] using this
  · intro k hk
    cases genAIok
    · simp [callGemmaApi] at hk
    · have hk' : k + 1 < (gemmaLoop o fileName MAX_RETRIES 0 60000).2.1 := by
        simpa [callGemmaApi] using hk
      exact gemmaLoop_retry_rateLimited o fileName MAX_RETRIES 0 60000 k (Nat.zero_le k) hk'
  · intro reason hgen h0
    subst hgen
    rw [callGemma_blocked o fileName reason h0]
    exact ⟨rfl, rfl⟩
  · intro msg hgen h0
    subst hgen
    rw [callGemma_otherError o fileName msg h0]
    exact ⟨rfl, rfl⟩

/-! ### C3: the page-cap short circuit -/

/-- Extraction beyond the page cap: the sentinel is returned immediately,
with no conversion and no recognition work. -/
theorem extract_tooLarge (f : PdfFile) (name : String) (n : Nat)
    (h1 : f.present = true) (h2 : f.pageCount = some n) (h3 : n > MAX_PAGES_FOR_ANALYSIS) :
    extractTextFromPdf f name = (some (tooLargeMsg name n), [Ev.pageInfo name]) := by
  simp [extractTextFromPdf, h1, h2, h3]

/-- C3: a document whose determined page count exceeds the cap makes
extraction return the too-large sentinel without conversion or
recognition, and the orchestrator stores that sentinel as the record's
diagnosis directly — the record's whole event trace is the single
page-count probe, so no inference call is ever made for it. -/
theorem tooLargeShortCircuit (f : PdfFile) (name : String) (n : Nat)
    (h1 : f.present = true) (h2 : f.pageCount = some n) (h3 : n > MAX_PAGES_FOR_ANALYSIS) :
    extractTextFromPdf f name = (some (tooLargeMsg name n), [Ev.pageInfo name]) ∧
    ∀ (env : OrchEnv) (cfg : AnalysisConfig) (item : AnalyzeItem) (d : InvoiceDoc)
      (fn : String) (i : Nat),
      item.doc = some d → d.file_name = some fn → fn ≠ "" →
      cfg.include_pdf_content = true → env.pdf (jsBasename fn) = f →
      recordStep env cfg item i =
        ((fn, { report_type := item.reportType, supplier := jsOrStr d.supplier "N/A",
                reason_from_gemma := tooLargeMsg (jsBasename fn) n,
                suggested_fix_data := .jnull,
                original_data_snippet := mkSnippet d }), [Ev.pageInfo (jsBasename fn)]) := by
  refine ⟨extract_tooLarge f name n h1 h2 h3, ?_⟩
  intro env cfg item d fn i hdoc hfn hne hinc hpdf
  obtain ⟨doc, rt⟩ := item
  have hdoc' : doc = some d := hdoc
  subst hdoc'
  have hfne : (fn == "") = false := by
    rw [beq_eq_false_iff_ne]
    exact hne
  have hext : extStep env cfg fn =
      (some (tooLargeMsg (jsBasename fn) n), [Ev.pageInfo (jsBasename fn)]) := by
    unfold extStep
    rw [hinc, hpdf]
    exact extract_tooLarge f (jsBasename fn) n h1 h2 h3
  have hnem : (tooLargeMsg (jsBasename fn) n != "") = true := by
    rw [bne_iff_ne]
    exact tooLargeMsg_ne_empty _ _
  have hsw := tooLargeMsg_startsWith (jsBasename fn) n
  have hreason : analysisReason0 env cfg fn = tooLargeMsg (jsBasename fn) n := by
    unfold analysisReason0
    rw [hinc, hext]
    simp [hnem, hsw]
  have hskip : skipInference env cfg fn = true := by
    unfold skipInference
    rw [hreason, hsw]
    simp
  simp [recordStep, hfn, hfne, mainRecordStep, hskip, hreason, hext]

/-- Witness for C3: a concrete 7-page PDF is short-circuited, and a run
over one record using it stores the sentinel with a trace containing no
inference call. -/
theorem tooLargeShortCircuit_witness :
    (exPdfBig.present = true ∧ exPdfBig.pageCount = some 7 ∧ 7 > MAX_PAGES_FOR_ANALYSIS) ∧
    extractTextFromPdf exPdfBig "inv1.pdf" =
      (some (tooLargeMsg "inv1.pdf" 7), [Ev.pageInfo "inv1.pdf"]) ∧
    (recordStep exEnvBig ⟨true⟩ ⟨some exDoc, "SHIPTOISSUE"⟩ 0).2 = [Ev.pageInfo "inv1.pdf"] := by
  have h := tooLargeShortCircuit exPdfBig "inv1.pdf" 7 rfl rfl (by decide)
  refine ⟨⟨rfl, rfl, by decide⟩, h.1, ?_⟩
  rw [h.2 exEnvBig ⟨true⟩ ⟨some exDoc, "SHIPTOISSUE"⟩ exDoc "inv1.pdf" 0 rfl rfl (by decide)
    rfl rfl]
  rfl

/-! ### C8: conditional-write outcomes and their aggregation -/

/-- The matched/modified counts of one conditional write take exactly one
of the three shapes: applied (1, 1), no-op (1, 0), not-applied (0, 0). -/
theorem mongoUpdateOne_counts :
    ∀ (docs : List InvoiceDoc) (item : UpdatePlanItem),
      ((mongoUpdateOne docs item).2.1 = 1 ∧ (mongoUpdateOne docs item).2.2 = 1) ∨
      ((mongoUpdateOne docs item).2.1 = 1 ∧ (mongoUpdateOne docs item).2.2 = 0) ∨
      ((mongoUpdateOne docs item).2.1 = 0 ∧ (mongoUpdateOne docs item).2.2 = 0)
  | [], item => Or.inr (Or.inr ⟨rfl, rfl⟩)
  | x :: xs, item => by
    by_cases hm : updateFilterMatches x item = true
    · simp only [mongoUpdateOne, hm, if_true]
      by_cases hb : JVal.beq x.ship_to item.suggested_ship_to = true
      · simp [hb]
      · rw [Bool.not_eq_true] at hb
        simp [hb]
    · rw [Bool.not_eq_true] at hm
      simp only [mongoUpdateOne, hm, Bool.false_eq_true, if_false]
      exact mongoUpdateOne_counts xs item

/-- A write that matched nothing left the collection unchanged. -/
theorem mongoUpdateOne_noMatch_unchanged :
    ∀ (docs : List InvoiceDoc) (item : UpdatePlanItem),
      (mongoUpdateOne docs item).2.1 = 0 → (mongoUpdateOne docs item).1 = docs
  | [], _, _ => rfl
  | x :: xs, item, h => by
    by_cases hm : updateFilterMatches x item = true
    · simp [mongoUpdateOne, hm] at h
    · rw [Bool.not_eq_true] at hm
      simp only [mongoUpdateOne, hm, Bool.false_eq_true, if_false] at h ⊢
      rw [mongoUpdateOne_noMatch_unchanged xs item h]

/-- C8 (amended): each executed conditional write yields exactly one of
the three outcomes — applied (matched and modified: success count
increments), no-op (matched, not modified: statistics unchanged), or
not-applied (no match: the item is appended to the failure list with the
recorded reason string and the failure count increments) — and in every
case the loop continues with the remaining items. -/
theorem updateOutcomes (docs : List InvoiceDoc) (item : UpdatePlanItem) :
    (((mongoUpdateOne docs item).2.1 = 1 ∧ (mongoUpdateOne docs item).2.2 = 1) ∨
     ((mongoUpdateOne docs item).2.1 = 1 ∧ (mongoUpdateOne docs item).2.2 = 0) ∨
     ((mongoUpdateOne docs item).2.1 = 0 ∧ (mongoUpdateOne docs item).2.2 = 0)) ∧
    ((mongoUpdateOne docs item).2.1 = 0 →
      (mongoUpdateOne docs item).1 = docs ∧
      ∀ (rest : List UpdatePlanItem) (s : UpdateStats),
        execUpdatesGo docs (item :: rest) s =
          execUpdatesGo docs rest
            ⟨s.successCount, s.failureCount + 1, s.failedUpdates ++ [(item, noMatchReason)]⟩) ∧
    (∀ (rest : List UpdatePlanItem) (s : UpdateStats),
      (mongoUpdateOne docs item).2.1 = 1 → (mongoUpdateOne docs item).2.2 = 1 →
      execUpdatesGo docs (item :: rest) s =
        execUpdatesGo (mongoUpdateOne docs item).1 rest
          ⟨s.successCount + 1, s.failureCount, s.failedUpdates⟩) ∧
    (∀ (rest : List UpdatePlanItem) (s : UpdateStats),
      (mongoUpdateOne docs item).2.1 = 1 → (mongoUpdateOne docs item).2.2 = 0 →
      execUpdatesGo docs (item :: rest) s = execUpdatesGo (mongoUpdateOne docs item).1 rest s) := by
  refine ⟨mongoUpdateOne_counts docs item, ?_, ?_, ?_⟩
  · intro h0
    refine ⟨mongoUpdateOne_noMatch_unchanged docs item h0, ?_⟩
    intro rest s
    have hu := mongoUpdateOne_noMatch_unchanged docs item h0
    simp only [execUpdatesGo, h0, hu]
    rfl
  · intro rest s h1 h2
    simp only [execUpdatesGo, h1, h2]
    rfl
  · intro rest s h1 h2
    simp only [execUpdatesGo, h1, h2]
    rfl

/-- Counterexample for C8 as stated: at a concrete run whose filter
matches no document, the recorded reason is the literal string
"No matching document found or no modification needed.", not
"no matching document" (the outcome is still not-applied and the failure
count still increments). -/
theorem updateNoMatchReason_counterexample :
    (executeDatabaseUpdates [] [exPlanItem] .all).1.failedUpdates = [(exPlanItem, noMatchReason)] ∧
    (executeDatabaseUpdates [] [exPlanItem] .all).1.failureCount = 1 ∧
    noMatchReason ≠ "no matching document" := by
  exact ⟨rfl, rfl, by decide⟩

/-! ### Orchestrator trace structure (C7, C9, C6) -/

/-- A record's event trace does not depend on the loop index, which only
names the fallback key of a skipped record. -/
theorem recordStep_trace (env : OrchEnv) (cfg : AnalysisConfig) (item : AnalyzeItem) (i : Nat) :
    (recordStep env cfg item i).2 = recordTrace env cfg item := by
  obtain ⟨doc, rt⟩ := item
  cases doc with
  | none => rfl
  | some d =>
    cases hf : d.file_name with
    | none => simp [recordStep, recordTrace, hf]
    | some fn =>
      by_cases hfn : (fn == "") = true
      · simp [recordStep, recordTrace, hf, hfn]
      · rw [Bool.not_eq_true] at hfn
        simp [recordStep, recordTrace, hf, hfn]

/-- Extraction's tail emits no pacing event. -/
theorem pacing_notin_proceed (f : PdfFile) (name : String) :
    Ev.pacing ∉ (extractProceed f name).2 := by
  unfold extractProceed
  by_cases hc : f.convertOk = true
  · cases ho : f.ocrText <;> simp [hc, ho]
  · rw [Bool.not_eq_true] at hc
    simp [hc]

/-- Extraction emits no pacing event. -/
theorem pacing_notin_extract (f : PdfFile) (name : String) :
    Ev.pacing ∉ (extractTextFromPdf f name).2 := by
  unfold extractTextFromPdf
  by_cases hp : f.present = true
  · cases hn : f.pageCount with
    | none => simpa [hp, hn] using pacing_notin_proceed f name
    | some n =>
      by_cases hcap : n > MAX_PAGES_FOR_ANALYSIS
      · simp [hp, hn, hcap]
      · simpa [hp, hn, hcap] using pacing_notin_proceed f name
  · rw [Bool.not_eq_true] at hp
    simp [hp]

/-- The retry loop emits no pacing event. -/
theorem pacing_notin_gemmaLoop (o : Nat → ApiOutcome) (f : String) :
    ∀ (fuel a c : Nat), Ev.pacing ∉ (gemmaLoop o f fuel a c).2.2
  | 0, a, c => by simp [gemmaLoop]
  | fuel + 1, a, c => by
    cases h : o a with
    | success t => simp [gemmaLoop, h]
    | blocked r => simp [gemmaLoop, h]
    | otherError m =>
      simp only [gemmaLoop, h]
      split <;> simp
    | rateLimited m sd =>
      simp only [gemmaLoop, h]
      by_cases hlt : a + 1 < MAX_RETRIES
      · rw [if_pos hlt]
        show Ev.pacing ∉ Ev.inferAttempt f a :: Ev.retryWait _ :: (gemmaLoop o f fuel (a + 1) (c * 2)).2.2
        simp [pacing_notin_gemmaLoop o f fuel (a + 1) (c * 2)]
      · rw [if_neg hlt]
        simp

/-- The inference client emits no pacing event. -/
theorem pacing_notin_callGemma (g : Bool) (o : Nat → ApiOutcome) (f : String) :
    Ev.pacing ∉ (callGemmaApi g o f).2.2 := by
  cases g
  · simp [callGemmaApi]
  · have := pacing_notin_gemmaLoop o f MAX_RETRIES 0 60000
    simpa [callGemmaApi] using this

/-- The record's trace is the extraction trace, possibly followed by an
inference-client trace. -/
theorem mainRecordStep_trace_shape (env : OrchEnv) (cfg : AnalysisConfig) (d : InvoiceDoc)
    (fn rt : String) :
    (mainRecordStep env cfg d fn rt).2 = (extStep env cfg fn).2 ∨
    ∃ o, (mainRecordStep env cfg d fn rt).2 =
      (extStep env cfg fn).2 ++ (callGemmaApi env.genAIConfigured o fn).2.2 := by
  unfold mainRecordStep
  by_cases hsc : skipInference env cfg fn = true
  · rw [if_pos hsc]
    exact Or.inl rfl
  · rw [if_neg hsc]
    exact Or.inr ⟨_, rfl⟩

/-- The extraction phase emits no pacing event. -/
theorem pacing_notin_extStep (env : OrchEnv) (cfg : AnalysisConfig) (fn : String) :
    Ev.pacing ∉ (extStep env cfg fn).2 := by
  unfold extStep
  by_cases hinc : cfg.include_pdf_content = true
  · simpa [hinc] using pacing_notin_extract (env.pdf (jsBasename fn)) (jsBasename fn)
  · rw [Bool.not_eq_true] at hinc
    simp [hinc]

/-- One record's processing emits no pacing event: pacing sleeps happen
only at the loop's record boundaries. -/
theorem pacing_notin_recordTrace (env : OrchEnv) (cfg : AnalysisConfig) (item : AnalyzeItem) :
    Ev.pacing ∉ recordTrace env cfg item := by
  obtain ⟨doc, rt⟩ := item
  cases doc with
  | none => simp [recordTrace, recordStep]
  | some d =>
    cases hf : d.file_name with
    | none => simp [recordTrace, recordStep, hf]
    | some fn =>
      by_cases hfn : (fn == "") = true
      · simp [recordTrace, recordStep, hf, hfn]
      · rw [Bool.not_eq_true] at hfn
        simp only [recordTrace, recordStep, hf, hfn, Bool.false_eq_true, if_false]
        rcases mainRecordStep_trace_shape env cfg d fn ((⟨some d, rt⟩ : AnalyzeItem).reportType)
          with h | ⟨o, h⟩
        · rw [h]
          exact pacing_notin_extStep env cfg fn
        · rw [h]
          simp only [List.mem_append]
          rintro (hm | hm)
          · exact pacing_notin_extStep env cfg fn hm
          · exact pacing_notin_callGemma _ _ _ hm

/-- From any positive index on, the loop's trace is one pacing sleep
followed by the record's trace, per record. -/
theorem analyzeGo_trace_pos (env : OrchEnv) (cfg : AnalysisConfig) :
    ∀ (items : List AnalyzeItem) (i : Nat), 0 < i →
      (analyzeGo env cfg items i).2 =
        items.flatMap (fun it => Ev.pacing :: recordTrace env cfg it)
  | [], i, _ => by simp [analyzeGo]
  | item :: rest, i, hi => by
    simp only [analyzeGo, List.flatMap_cons]
    rw [if_pos hi, recordStep_trace, analyzeGo_trace_pos env cfg rest (i + 1) (by omega)]
    simp

/-- C7 (amended): the orchestrator's run trace is the first record's
trace followed, for each subsequent record, by one fixed pacing sleep and
that record's trace — the sleep precedes every record after the first,
whether or not any record makes an inference call, and no sleep precedes
the first record.  (In particular, when the first record is skipped
without an inference call, the pacing sleep still precedes the second
record, and so can precede the run's first inference call.) -/
theorem interRecordPacing (env : OrchEnv) (cfg : AnalysisConfig) (item : AnalyzeItem)
    (rest : List AnalyzeItem) :
    (analyzeInvoicesWithGemma env (item :: rest) cfg).2 =
      recordTrace env cfg item ++
        rest.flatMap (fun it => Ev.pacing :: recordTrace env cfg it) ∧
    Ev.pacing ∉ recordTrace env cfg item := by
  constructor
  · unfold analyzeInvoicesWithGemma
    simp only [analyzeGo]
    rw [recordStep_trace, analyzeGo_trace_pos env cfg rest 1 (by omega)]
    simp
  · exact pacing_notin_recordTrace env cfg item

/-- Counterexample for C7 as stated: in a concrete run whose first record
is skipped (no document), the 5-second pacing sleep precedes the run's
first — and only — inference call. -/
theorem pacingBeforeFirstInference_counterexample :
    (analyzeInvoicesWithGemma exEnv [exSkipItem, exDocItem] ⟨false⟩).2 =
      [Ev.pacing, Ev.inferAttempt "inv1.pdf" 0] ∧
    ((analyzeInvoicesWithGemma exEnv [exSkipItem, exDocItem] ⟨false⟩).2.takeWhile
        (fun e => !isInferAttempt e)).contains Ev.pacing = true := by
  constructor
  · rfl
  · rfl

/-! ### C9: per-record failure isolation -/

/-- The stored entry's report type is always the candidate's. -/
theorem recordStep_reportType (env : OrchEnv) (cfg : AnalysisConfig) (item : AnalyzeItem)
    (i : Nat) : ((recordStep env cfg item i).1).2.report_type = item.reportType := by
  obtain ⟨doc, rt⟩ := item
  cases doc with
  | none => rfl
  | some d =>
    cases hf : d.file_name with
    | none => simp [recordStep, hf]
    | some fn =>
      by_cases hfn : (fn == "") = true
      · simp [recordStep, hf, hfn]
      · rw [Bool.not_eq_true] at hfn
        simp only [recordStep, hf, hfn, Bool.false_eq_true, if_false]
        unfold mainRecordStep
        by_cases hsc : skipInference env cfg fn = true
        · rw [if_pos hsc]
        · rw [if_neg hsc]

/-- A record whose extraction fails is stored with the
extraction-failed diagnosis and a null correction (and, the loop being a
total function, the remaining records are still processed). -/
theorem recordStep_extractFail (env : OrchEnv) (cfg : AnalysisConfig) (item : AnalyzeItem)
    (i : Nat) (d : InvoiceDoc) (fn : String) (hdoc : item.doc = some d)
    (hfn : d.file_name = some fn) (hne : (fn == "") = false)
    (hinc : cfg.include_pdf_content = true)
    (hext1 : (extractTextFromPdf (env.pdf (jsBasename fn)) (jsBasename fn)).1 = none) :
    ((recordStep env cfg item i).1).2.reason_from_gemma = "PDF text extraction failed." ∧
    ((recordStep env cfg item i).1).2.suggested_fix_data = .jnull := by
  obtain ⟨doc, rt⟩ := item
  have hdoc' : doc = some d := hdoc
  subst hdoc'
  have hextS : (extStep env cfg fn).1 = none := by
    unfold extStep
    rw [hinc]
    exact hext1
  have hreason : analysisReason0 env cfg fn = "PDF text extraction failed." := by
    unfold analysisReason0
    rw [hinc, hextS]
    rfl
  have hskip : skipInference env cfg fn = true := by
    unfold skipInference
    rw [hreason]
    decide
  simp [recordStep, hfn, hne, mainRecordStep, hskip, hreason]

/-- The stored entry of every candidate satisfies `recordOk`. -/
theorem recordStep_ok (env : OrchEnv) (cfg : AnalysisConfig) (item : AnalyzeItem) (i : Nat) :
    recordOk env cfg item ((recordStep env cfg item i).1) :=
  ⟨recordStep_reportType env cfg item i,
   fun d fn hdoc hfn hne hinc hext1 =>
     recordStep_extractFail env cfg item i d fn hdoc hfn hne hinc hext1⟩

/-- The loop stores one `recordOk` entry per candidate, in order. -/
theorem analyzeGo_results (env : OrchEnv) (cfg : AnalysisConfig) :
    ∀ (items : List AnalyzeItem) (i : Nat),
      List.Forall₂ (recordOk env cfg) items (analyzeGo env cfg items i).1
  | [], _ => List.Forall₂.nil
  | x :: xs, i =>
    List.Forall₂.cons (recordStep_ok env cfg x i) (analyzeGo_results env cfg xs (i + 1))

/-- C9: a run over any candidate list stores exactly one entry per
candidate — a failed record (extraction failure included) is recorded
with the partial state it reached and never aborts the processing of
subsequent records — and the run returns (persists) the full entry
list. -/
theorem perRecordIsolation (env : OrchEnv) (cfg : AnalysisConfig) (items : List AnalyzeItem) :
    (analyzeInvoicesWithGemma env items cfg).1.length = items.length ∧
    List.Forall₂ (recordOk env cfg) items (analyzeInvoicesWithGemma env items cfg).1 := by
  have h := analyzeGo_results env cfg items 0
  exact ⟨(List.Forall₂.length_eq h).symm, h⟩

/-! ### C6: the snapshot omits the corrected field (code bug) -/

/-- C6 (code bug): at a concrete `SHIPTOISSUE` record whose `ship_to` is
the empty string, the stored OriginalSnapshot's `ship_to` reads as
`undefined` (the source's snippet literal has no such key), so the update
plan built from the stored results carries `current_ship_to = null`,
which is not the record's actual value ("") at analysis time. -/
theorem snapshotOmitsShipTo :
    exDoc.ship_to = .jstr "" ∧
    ((analyzeInvoicesWithGemma exEnv [exDocItem] ⟨false⟩).1.map
      (fun e => e.2.original_data_snippet.ship_to)) = [.jundefined] ∧
    ((prepareUpdatePlan (analyzeInvoicesWithGemma exEnv [exDocItem] ⟨false⟩).1).map
      (fun it => it.current_ship_to)) = [.jnull] ∧
    JVal.jnull ≠ JVal.jstr "" := by
  refine ⟨rfl, rfl, rfl, fun h => JVal.noConfusion h⟩

/-! ### C4: the response-parsing protocol -/

/-- When the candidate payload does not parse, the correction stays
null. -/
theorem fixFromPayload_none (p : String) (h : jsonParse (candidateJsonString p) = none) :
    fixFromPayload p = .jnull := by
  unfold fixFromPayload
  by_cases hc : (candidateJsonString p == "") = true
  · rw [if_pos hc]
  · rw [if_neg hc, h]

/-- When the candidate payload parses, its value is the correction. -/
theorem fixFromPayload_some (p : String) (v : JVal)
    (h : jsonParse (candidateJsonString p) = some v) : fixFromPayload p = v := by
  unfold fixFromPayload
  have hc : (candidateJsonString p == "") = false := by
    rw [beq_eq_false_iff_ne]
    intro hce
    rw [hce, show jsonParse "" = none from rfl] at h
    exact Option.noConfusion h
  simp only [hc, Bool.false_eq_true, if_false]
  rw [h]

/-- C4 (amended): when the marker's first occurrence splits the response
as `pre ++ marker ++ post`, the parsed diagnosis is exactly `pre`
trimmed — it never includes text after the marker — and the correction is
exactly the parse of the candidate payload (the first-brace-to-last-brace
slice of the trimmed remainder when present in order, otherwise the whole
trimmed remainder): null when the candidate does not parse (the diagnosis
being kept regardless), the parsed value when it does. -/
theorem parseResponseSplit (pre post : String)
    (h : firstMatchPos fixDataMarker.data (pre ++ fixDataMarker ++ post).data =
      some pre.data.length) :
    parseGemmaResponse (pre ++ fixDataMarker ++ post) =
      (jsTrim pre, fixFromPayload (jsTrim post)) ∧
    (jsonParse (candidateJsonString (jsTrim post)) = none →
      (parseGemmaResponse (pre ++ fixDataMarker ++ post)).2 = .jnull ∧
      (parseGemmaResponse (pre ++ fixDataMarker ++ post)).1 = jsTrim pre) ∧
    (∀ v, jsonParse (candidateJsonString (jsTrim post)) = some v →
      (parseGemmaResponse (pre ++ fixDataMarker ++ post)).2 = v) := by
  have htake : (pre ++ fixDataMarker ++ post).data.take pre.data.length = pre.data := by
    rw [strData_append, strData_append, List.append_assoc]
    exact List.take_left pre.data _
  have hdrop : (pre ++ fixDataMarker ++ post).data.drop
      (pre.data.length + fixDataMarker.data.length) = post.data := by
    rw [strData_append, strData_append, ← List.length_append]
    exact List.drop_left _ _
  have heq : parseGemmaResponse (pre ++ fixDataMarker ++ post) =
      (jsTrim pre, fixFromPayload (jsTrim post)) := by
    unfold parseGemmaResponse
    rw [h]
    show (jsTrim ⟨(pre ++ fixDataMarker ++ post).data.take pre.data.length⟩,
          fixFromPayload (jsTrim ⟨(pre ++ fixDataMarker ++ post).data.drop
            (pre.data.length + fixDataMarker.data.length)⟩)) = _
    rw [htake, hdrop]
  refine ⟨heq, ?_, ?_⟩
  · intro hnone
    rw [heq]
    exact ⟨fixFromPayload_none _ hnone, rfl⟩
  · intro v hsome
    rw [heq]
    exact fixFromPayload_some _ v hsome

/-- Witness for C4's amended theorem at the spec's own scenario string. -/
theorem parseResponseSplit_witness :
    firstMatchPos fixDataMarker.data
        ("Missing PO.\n" ++ fixDataMarker ++ " \x7b\"po_num\": \"PO-991\"\x7d").data =
      some ("Missing PO.\n" : String).data.length ∧
    parseGemmaResponse ("Missing PO.\n" ++ fixDataMarker ++ " \x7b\"po_num\": \"PO-991\"\x7d") =
      (jsTrim "Missing PO.\n", fixFromPayload (jsTrim " \x7b\"po_num\": \"PO-991\"\x7d")) := by
  have h : firstMatchPos fixDataMarker.data
      ("Missing PO.\n" ++ fixDataMarker ++ " \x7b\"po_num\": \"PO-991\"\x7d").data =
      some ("Missing PO.\n" : String).data.length := by decide
  exact ⟨h, (parseResponseSplit "Missing PO.\n" " \x7b\"po_num\": \"PO-991\"\x7d" h).1⟩

/-- Counterexample for C4 as stated: the response
`"Missing PO.\nSUGGESTED_FIX_DATA: 42"` carries no brace-delimited
payload after the marker, yet the code produces the (non-null) correction
42; so a correction is not produced "iff a valid brace-delimited payload
follows the marker". -/
theorem parseResponseNonBrace_counterexample :
    (parseGemmaResponse "Missing PO.\nSUGGESTED_FIX_DATA: 42").1 = "Missing PO." ∧
    JVal.beq (parseGemmaResponse "Missing PO.\nSUGGESTED_FIX_DATA: 42").2 (.jnum 42) = true ∧
    JVal.beq (parseGemmaResponse "Missing PO.\nSUGGESTED_FIX_DATA: 42").2 .jnull = false ∧
    firstCharPos '{' (jsTrim "42").data = none ∧
    lastCharPos '}' (jsTrim "42").data = none := by
  refine ⟨rfl, by decide, by decide, rfl, rfl⟩

/-! ### C10: the SHIPTOISSUE prompt keeps the literal placeholder -/

theorem charsPre_iff_take : ∀ (pat l : List Char), charsPre pat l = true ↔ l.take pat.length = pat
  | [], l => by simp [charsPre]
  | a :: as, [] => by simp [charsPre]
  | a :: as, b :: bs => by
    rw [List.length_cons, List.take_succ_cons]
    simp only [charsPre, Bool.and_eq_true, beq_iff_eq, charsPre_iff_take as bs, List.cons.injEq]
    constructor
    · rintro ⟨h1, h2⟩; exact ⟨h1.symm, h2⟩
    · rintro ⟨h1, h2⟩; exact ⟨h1.symm, h2⟩

theorem firstMatchPos_occursAt {pat : List Char} :
    ∀ (l : List Char) (i : Nat), firstMatchPos pat l = some i → OccursAt l pat i
  | [], i, h => by
    rw [firstMatchPos] at h
    split at h
    · cases h
      exact (charsPre_iff_take pat []).mp (by assumption)
    · exact absurd h (by simp)
  | b :: bs, i, h => by
    rw [firstMatchPos] at h
    split at h
    · cases h
      exact (charsPre_iff_take pat (b :: bs)).mp (by assumption)
    · rw [Option.map_eq_some'] at h
      obtain ⟨j, hj, hi⟩ := h
      have ih := firstMatchPos_occursAt bs j hj
      rw [← hi, OccursAt, List.drop_succ_cons]
      exact ih

theorem occursAt_getElem? {l pat : List Char} {p : Nat} (h : OccursAt l pat p)
    {j : Nat} (hj : j < pat.length) : l[p + j]? = pat[j]? := by
  calc l[p + j]? = (l.drop p)[j]? := (List.getElem?_drop l p j).symm
    _ = ((l.drop p).take pat.length)[j]? := (List.getElem?_take_of_lt hj).symm
    _ = pat[j]? := by rw [h]

theorem occursAt_le {l pat : List Char} {p : Nat} (h : OccursAt l pat p) (hp : pat ≠ []) :
    p + pat.length ≤ l.length := by
  have hl := congrArg List.length h
  simp only [List.length_take, List.length_drop] at hl
  have hpos : 0 < pat.length := List.length_pos.mpr hp
  omega

theorem occursAt_disjoint {x y l : List Char} {i q : Nat}
    (hs : SafePat x y) (hx : OccursAt l x i) (hy : OccursAt l y q) :
    q + y.length ≤ i ∨ i + x.length ≤ q := by
  obtain ⟨hx0, hy0, hx1, hy1, hxy, hyx⟩ := hs
  have hxlen : 0 < x.length := by
    cases x with
    | nil => simp at hx0
    | cons a as => simp
  have hylen : 0 < y.length := by
    cases y with
    | nil => simp at hy0
    | cons a as => simp
  by_contra hcon
  push_neg at hcon
  obtain ⟨h1, h2⟩ := hcon
  rcases Nat.lt_trichotomy i q with hlt | heq | hgt
  · -- q strictly inside x's occurrence
    have hq : q - i < x.length := by omega
    have hql : l[q]? = x[q - i]? := by
      have := occursAt_getElem? hx hq
      rwa [show i + (q - i) = q from by omega] at this
    have hq0 : l[q]? = y[0]? := by
      have := occursAt_getElem? hy hylen
      rwa [Nat.add_zero] at this
    have hy0' : y[0]? = some '{' := by rw [← List.head?_eq_getElem?]; exact hy0
    have hbrace : x[q - i]? = some '{' := by rw [← hql, hq0, hy0']
    have hmem : '{' ∈ x.drop 1 := by
      have hdx : (x.drop 1)[q - i - 1]? = x[q - i]? := by
        rw [List.getElem?_drop]
        congr 1
        omega
      exact List.getElem?_mem (hdx.trans hbrace)
    exact hx1 hmem
  · subst heq
    rcases Nat.le_total x.length y.length with hle | hle
    · apply hyx
      calc y.take x.length = ((l.drop i).take y.length).take x.length := by rw [hy]
        _ = (l.drop i).take (min x.length y.length) := by rw [List.take_take]
        _ = (l.drop i).take x.length := by rw [Nat.min_eq_left hle]
        _ = x := hx
    · apply hxy
      calc x.take y.length = ((l.drop i).take x.length).take y.length := by rw [hx]
        _ = (l.drop i).take (min y.length x.length) := by rw [List.take_take]
        _ = (l.drop i).take y.length := by rw [Nat.min_eq_left hle]
        _ = y := hy
  · -- i strictly inside y's occurrence
    have hi' : i - q < y.length := by omega
    have hil : l[i]? = y[i - q]? := by
      have := occursAt_getElem? hy hi'
      rwa [show q + (i - q) = i from by omega] at this
    have hi0 : l[i]? = x[0]? := by
      have := occursAt_getElem? hx hxlen
      rwa [Nat.add_zero] at this
    have hx0' : x[0]? = some '{' := by rw [← List.head?_eq_getElem?]; exact hx0
    have hbrace : y[i - q]? = some '{' := by rw [← hil, hi0, hx0']
    have hmem : '{' ∈ y.drop 1 := by
      have hdy : (y.drop 1)[i - q - 1]? = y[i - q]? := by
        rw [List.getElem?_drop]
        congr 1
        omega
      exact List.getElem?_mem (hdy.trans hbrace)
    exact hy1 hmem

theorem containsChars_iff (l pat : List Char) :
    containsChars l pat = true ↔ ∃ p, OccursAt l pat p := by
  rw [containsChars, List.any_eq_true]
  constructor
  · rintro ⟨i, -, hc⟩
    exact ⟨i, (charsPre_iff_take pat (l.drop i)).mp hc⟩
  · rintro ⟨p, hp⟩
    by_cases h : p ≤ l.length
    · exact ⟨p, List.mem_range.mpr (by omega), (charsPre_iff_take pat (l.drop p)).mpr hp⟩
    · have hnil : l.drop p = [] := List.drop_eq_nil_of_le (by omega)
      have hpat : pat = [] := by
        rw [OccursAt, hnil] at hp
        simpa using hp.symm
      refine ⟨0, List.mem_range.mpr (by omega), ?_⟩
      rw [hpat]
      rfl

theorem occursAt_replace {x y l rep : List Char} {i q : Nat}
    (hs : SafePat x y) (hx : OccursAt l x i) (hy : OccursAt l y q) :
    ∃ r, OccursAt (l.take i ++ rep ++ l.drop (i + x.length)) y r := by
  have hxne : x ≠ [] := by
    intro h
    rw [h] at hs
    simpa using hs.1
  have hyne : y ≠ [] := by
    intro h
    rw [h] at hs
    simpa using hs.2.1
  have hxb := occursAt_le hx hxne
  have hyb := occursAt_le hy hyne
  have hylen : 0 < y.length := List.length_pos.mpr hyne
  rcases occursAt_disjoint hs hx hy with hA | hB
  · -- the y-occurrence lies wholly inside l.take i
    refine ⟨q, ?_⟩
    have hqA : q ≤ (l.take i).length := by
      rw [List.length_take]
      omega
    have hyA : y.length ≤ ((l.take i).drop q).length := by
      rw [List.length_drop, List.length_take]
      omega
    rw [OccursAt, List.append_assoc] at *
    calc ((l.take i ++ (rep ++ l.drop (i + x.length))).drop q).take y.length
        = ((l.take i).drop q ++ (rep ++ l.drop (i + x.length))).take y.length := by
          rw [List.drop_append_of_le_length hqA]
      _ = ((l.take i).drop q).take y.length := List.take_append_of_le_length hyA
      _ = ((l.drop q).take (i - q)).take y.length := by rw [List.drop_take]
      _ = (l.drop q).take (min y.length (i - q)) := by rw [List.take_take]
      _ = (l.drop q).take y.length := by rw [Nat.min_eq_left (by omega)]
      _ = y := hy
  · -- the y-occurrence lies wholly inside l.drop (i + x.length)
    refine ⟨(l.take i).length + (rep.length + (q - (i + x.length))), ?_⟩
    rw [OccursAt, List.append_assoc, ← List.drop_drop, List.drop_left,
      ← List.drop_drop, List.drop_left, List.drop_drop,
      show i + x.length + (q - (i + x.length)) = q from by omega]
    exact hy

theorem replaceKeepsSub {s pat rep sub : String}
    (hs : SafePat pat.data sub.data) (h : strContainsSub s sub = true) :
    strContainsSub (jsReplace s pat rep) sub = true := by
  rw [strContainsSub, containsChars_iff] at h
  obtain ⟨q, hq⟩ := h
  rw [jsReplace]
  split
  · rw [strContainsSub, containsChars_iff]
    exact ⟨q, hq⟩
  · rename_i i heq
    rw [strContainsSub, containsChars_iff]
    exact occursAt_replace hs (firstMatchPos_occursAt s.data i heq) hq


theorem condReplaceKeeps {s pat rep sub : String}
    (hs : SafePat pat.data sub.data) (h : strContainsSub s sub = true) :
    strContainsSub (condReplace s pat rep) sub = true := by
  rw [condReplace]
  split
  · exact replaceKeepsSub hs h
  · exact h

theorem applyPdfKeeps {p sub : String} (t : Option String) (cfg : AnalysisConfig)
    (hs : SafePat "{pdf_content_section}".data sub.data)
    (h : strContainsSub p sub = true) :
    strContainsSub (applyPdfSection p t cfg) sub = true := by
  cases t with
  | none => exact replaceKeepsSub hs h
  | some s =>
    simp only [applyPdfSection.eq_def]
    by_cases h1 : (s != "" && cfg.include_pdf_content) = true
    · rw [if_pos h1]
      by_cases h2 : jsStartsWith s "PDF_TOO_LARGE:" = true
      · rw [if_pos h2]
        exact replaceKeepsSub hs h
      · rw [if_neg h2]
        exact replaceKeepsSub hs h
    · rw [if_neg h1]
      exact replaceKeepsSub hs h

/-- C10: for every SHIPTOISSUE record, the compiled prompt still contains
the literal, unsubstituted placeholder text `{ship_to}`: the SHIPTOISSUE
template references both `{ship_to}` and `{ship_to_value}`, and the
compiler substitutes only `{ship_to_value}` — every pattern it replaces
(the seven field placeholders and `{pdf_content_section}`) starts with an
opening brace, contains no other opening brace, and is not mutually a
prefix of `{ship_to}`, so no replacement can consume the `{ship_to}`
occurrence. -/
theorem shiptoPlaceholderSurvives (d : InvoiceDoc) (pdfText : Option String)
    (cfg : AnalysisConfig) (today : String) :
    strContainsSub shiptoIssueTemplate.base_prompt "{ship_to}" = true ∧
    strContainsSub shiptoIssueTemplate.base_prompt "{ship_to_value}" = true ∧
    strContainsSub (constructGemmaPrompt d pdfText "SHIPTOISSUE" cfg today) "{ship_to}" = true := by
  have h0 : strContainsSub shiptoIssueTemplate.base_prompt "{ship_to}" = true := by decide
  refine ⟨h0, by decide, ?_⟩
  show strContainsSub
    (applyPdfSection (renderTemplateFields shiptoIssueTemplate d today) pdfText cfg)
    "{ship_to}" = true
  refine applyPdfKeeps _ _
    ⟨by decide, by decide, by decide, by decide, by decide, by decide⟩ ?_
  rw [renderTemplateFields]
  refine condReplaceKeeps
    ⟨by decide, by decide, by decide, by decide, by decide, by decide⟩ ?_
  refine condReplaceKeeps
    ⟨by decide, by decide, by decide, by decide, by decide, by decide⟩ ?_
  refine condReplaceKeeps
    ⟨by decide, by decide, by decide, by decide, by decide, by decide⟩ ?_
  refine condReplaceKeeps
    ⟨by decide, by decide, by decide, by decide, by decide, by decide⟩ ?_
  refine replaceKeepsSub
    ⟨by decide, by decide, by decide, by decide, by decide, by decide⟩ ?_
  refine replaceKeepsSub
    ⟨by decide, by decide, by decide, by decide, by decide, by decide⟩ ?_
  refine replaceKeepsSub
    ⟨by decide, by decide, by decide, by decide, by decide, by decide⟩ ?_
  exact h0

end InvoiceAnalyzer
